import Mathlib

/-!
Verification of the covariate assignment and interpolation engine of the
`cascade` repository (`src/cascade/input_data/configuration/builder.py`).

The embedding models pandas DataFrames as Lean lists of records.  A
measurement table carries an explicit index label for every row (pandas
row identity); a covariate table is a plain list of rows.  All numeric
columns are rationals.  Missing values (NaN) are `Option.none`.

Library semantics used by the source are modelled as follows:
* `scipy.spatial.KDTree` + `query`: exact nearest neighbour under the
  Euclidean metric (equivalently, minimal squared distance), ties broken
  by the first (lowest-index) point.  Constructing a KDTree over an empty
  point list fails in scipy; the model returns an error in that case.
* `scipy.interpolate.interp1d(x, y, bounds_error=False)`: piecewise linear
  interpolation over the points sorted by `x`, returning NaN (`none`)
  outside `[min x, max x]`.
* `scipy.interpolate.interp2d(x, y, z)`: a smoothing spline whose value
  function scipy does not specify simply; the model packages the sample
  points and takes the evaluation semantics as an explicit parameter
  (`sem`) of the pipeline.  No claim below depends on the values a 2-d
  interpolator produces.  Its constructor, however, can fail: on
  scattered data it calls `bisplrep(x, y, z, kx=1, ky=1, s=0)`, which
  raises for fewer than `(kx+1)*(ky+1) = 4` sample points and errors on
  degenerate data whose x- or y-coordinates are all equal; the model
  checks these requirements (`interp2dConstructible`) and returns an
  error when they fail.  Further numerical failure modes of `bisplrep`
  on well-shaped data are outside the model.
* `pandas.merge(..., how="inner", sort=False)`: left-nested-loop inner
  join (order of the left frame, then of the right frame).
* `Series.sort_index`: sorting of (label, value) pairs by label.
* `numpy.where(cond, a, b)` on 1-d arguments: positional selection with
  numpy broadcasting; a shape mismatch raises.
Errors raised by the Python code (`InputDataError`, the two `ValueError`
raise sites, library failures) are the constructors of `Err` below.
`Err.emptyCovariateTable` is modelled from the spec: the spec's error
taxonomy names an `EmptyCovariateTableError`, but no raise site in the
source corresponds to it.
-/

attribute [local semireducible] Rat.add Rat.mul Rat.inv Rat.sub Rat.ofScientific

namespace Cascade

instance {e a : Type} [DecidableEq e] [DecidableEq a] : DecidableEq (Except e a) := fun x y =>
  match x, y with
  | .ok v, .ok w =>
    if h : v = w then .isTrue (by rw [h]) else .isFalse (fun hc => h (Except.ok.inj hc))
  | .error v, .error w =>
    if h : v = w then .isTrue (by rw [h]) else .isFalse (fun hc => h (Except.error.inj hc))
  | .ok _, .error _ => .isFalse (fun hc => Except.noConfusion hc)
  | .error _, .ok _ => .isFalse (fun hc => Except.noConfusion hc)

/-- Error outcomes of the engine.  Each constructor corresponds to one
raise site in the source (or a library failure), except
`emptyCovariateTable`, which is modelled from the spec's error taxonomy
and has no raise site in the code. -/
inductive Err where
  /-- `InputDataError` in `convert_gbd_ids_to_dismod_values`: carries the
  set of missing age-group ids, the original row count and the count of
  rows that survived the joins. -/
  | inputDataMissingAgeGroups (missing : List ℤ) (original matched : ℕ)
  /-- `ValueError` in `generate_covariate_interpolators_by_sex` (sex set
  is neither both-only nor exactly female+male). -/
  | unsupportedSexCoverage
  /-- `ValueError` in `select_interpolator_based_on_at_dims` (neither age
  nor time varies). -/
  | degenerateInterpolationDomain
  /-- Modelled from the spec: the spec's `EmptyCovariateTableError`.  The
  source has no such raise site. -/
  | emptyCovariateTable
  /-- scipy `KDTree` construction failure on an empty point list. -/
  | kdtreeEmptyData
  /-- Python `TypeError`: calling an interpolator with the wrong arity. -/
  | typeError
  /-- Python `NameError`: `compute_interpolated_covariate_values_by_sex`
  reaches the end of its if-chain with the covariate lists unassigned. -/
  | nameError
  /-- numpy broadcasting failure in `np.where`. -/
  | broadcastMismatch
  /-- scipy failure inside `interp2d` construction: on scattered data the
  constructor calls `bisplrep(x, y, z, kx=1, ky=1, s=0)`, which raises
  (`TypeError: m >= (kx+1)(ky+1) must hold`) for fewer than 4 sample
  points and errors when all x-coordinates or all y-coordinates are
  equal. -/
  | interp2dConstructionFailure
deriving DecidableEq, Repr

/-- One row of a measurements table (a `RecordRow` of the spec): the
columns of `measurements` read by the engine. -/
structure MeasRow where
  age_lower : ℚ
  age_upper : ℚ
  time_lower : ℚ
  time_upper : ℚ
  x_sex : ℚ
deriving DecidableEq, Repr

/-- One row of a covariate table (a `CovariateRow` of the spec): the
columns of `covariates` read by the engine. -/
structure CovRow where
  age_lower : ℚ
  age_upper : ℚ
  time_lower : ℚ
  time_upper : ℚ
  x_sex : ℚ
  mean_value : ℚ
deriving DecidableEq, Repr

instance : Inhabited CovRow := ⟨⟨0, 0, 0, 0, 0, 0⟩⟩

/-- A measurements table: rows with their pandas index labels. -/
abbrev MeasTable := List (ℕ × MeasRow)

/-- Sex codes used throughout `builder.py`. -/
def female : ℚ := -(1/2)

def male : ℚ := 1/2

def both : ℚ := 0

/-- `measurements[["age_lower", "age_upper"]].mean(axis=1)` for one row. -/
def MeasRow.meanAge (r : MeasRow) : ℚ := (r.age_lower + r.age_upper) / 2

/-- `measurements[["time_lower", "time_upper"]].mean(axis=1)` for one row. -/
def MeasRow.meanTime (r : MeasRow) : ℚ := (r.time_lower + r.time_upper) / 2

/-- `covariates[["age_lower", "age_upper"]].mean(axis=1)` for one row. -/
def CovRow.meanAge (c : CovRow) : ℚ := (c.age_lower + c.age_upper) / 2

/-- `covariates[["time_lower", "time_upper"]].mean(axis=1)` for one row. -/
def CovRow.meanTime (c : CovRow) : ℚ := (c.time_lower + c.time_upper) / 2

/-! ### Nearest-neighbour matcher -/

/-- The 3-d feature point of a covariate row:
`(mean age / 240, mean time, x_sex)`. -/
def covFeature (c : CovRow) : ℚ × ℚ × ℚ := (c.meanAge / 240, c.meanTime, c.x_sex)

/-- The 3-d feature point of a measurement row. -/
def measFeature (r : MeasRow) : ℚ × ℚ × ℚ := (r.meanAge / 240, r.meanTime, r.x_sex)

/-- Squared Euclidean distance between feature points.  Nearest under the
Euclidean metric coincides with nearest under squared distance. -/
def distSq (p q : ℚ × ℚ × ℚ) : ℚ :=
  (p.1 - q.1) ^ 2 + (p.2.1 - q.2.1) ^ 2 + (p.2.2 - q.2.2) ^ 2

/-- Index of the first minimum of a list of rationals (`KDTree.query`:
the single nearest point, ties to the first point). -/
def argminIdx : List ℚ → ℕ
  | [] => 0
  | [_] => 0
  | x :: y :: ys =>
    let j := argminIdx (y :: ys)
    if x ≤ (y :: ys).getD j 0 then 0 else j + 1

/-- `covariate_to_measurements_nearest_favoring_same_year` from
`builder.py`: build the KDTree over the covariate features, query the
feature of every measurement, and return the matched `mean_value`s as a
series carrying the measurements' index.  scipy's KDTree cannot be built
over an empty covariate table. -/
def covariate_to_measurements_nearest_favoring_same_year
    (measurements : MeasTable) (covariates : List CovRow) :
    Except Err (List (ℕ × ℚ)) :=
  if covariates.isEmpty then .error .kdtreeEmptyData
  else
    let pts := covariates.map covFeature
    .ok (measurements.map (fun p =>
      let k := argminIdx (pts.map (fun c => distSq c (measFeature p.2)))
      (p.1, (covariates.getD k default).mean_value)))

/-! ### Interpolators -/

/-- The object returned by `select_interpolator_based_on_at_dims`:
either `scipy.interpolate.interp1d(xs, ys, bounds_error=False)` packaged
as its list of `(x, y)` sample points, or `scipy.interpolate.interp2d`
packaged as its list of `(x, y, z)` sample points (its evaluation
semantics is a parameter of the pipeline, see the header). -/
inductive Interpolator where
  | oneD (pts : List (ℚ × ℚ))
  | twoD (pts : List (ℚ × ℚ × ℚ))
deriving DecidableEq, Repr

/-- The evaluation semantics of a `scipy.interpolate.interp2d` object,
abstract in this development. -/
abbrev Interp2dSem := List (ℚ × ℚ × ℚ) → ℚ → ℚ → Option ℚ

def Interpolator.isTwoD : Interpolator → Bool
  | .twoD _ => true
  | .oneD _ => false

def Interpolator.isOneD : Interpolator → Bool
  | .twoD _ => false
  | .oneD _ => true

/-- Insert into a list sorted by a natural-number key (stable). -/
def insertByKey {α : Type} (key : α → ℕ) (a : α) : List α → List α
  | [] => [a]
  | b :: l => if key a ≤ key b then a :: b :: l else b :: insertByKey key a l

/-- Stable sort by a natural-number key (`Series.sort_index` and
`sort_values(by="original_index")`). -/
def sortByKey {α : Type} (key : α → ℕ) : List α → List α
  | [] => []
  | a :: l => insertByKey key a (sortByKey key l)

/-- Insert into a list sorted by the rational first component (stable). -/
def insertByQ {α : Type} (key : α → ℚ) (a : α) : List α → List α
  | [] => [a]
  | b :: l => if key a ≤ key b then a :: b :: l else b :: insertByQ key a l

/-- Stable sort by a rational key (the argsort `interp1d` performs on its
`x` data when `assume_sorted=False`, the default). -/
def sortByQ {α : Type} (key : α → ℚ) : List α → List α
  | [] => []
  | a :: l => insertByQ key a (sortByQ key l)

/-- Piecewise-linear evaluation over points already sorted by `x`:
find the first segment whose right endpoint is at or past the query and
interpolate linearly on it.  (The caller has checked the query is at or
past the first `x`.) -/
def interpSegments : List (ℚ × ℚ) → ℚ → Option ℚ
  | [], _ => none
  | [p], q => if q = p.1 then some p.2 else none
  | p :: p2 :: rest, q =>
    if q ≤ p2.1 then
      some (p.2 + (p2.2 - p.2) * (q - p.1) / (p2.1 - p.1))
    else interpSegments (p2 :: rest) q

/-- `scipy.interpolate.interp1d(xs, ys, bounds_error=False)` evaluated at
`q`: sort the sample points by `x`, return NaN (`none`) outside
`[min x, max x]`, otherwise interpolate linearly. -/
def interp1dEval (pts : List (ℚ × ℚ)) (q : ℚ) : Option ℚ :=
  match sortByQ Prod.fst pts with
  | [] => none
  | p :: rest =>
    if q < p.1 then none
    else if ((p :: rest).getLastD p).1 < q then none
    else interpSegments (p :: rest) q

/-- Calling an interpolator with one argument (the 1-d branches of
`compute_interpolated_covariate_values_by_sex`).  Calling a 2-d
interpolator this way is a Python `TypeError`. -/
def callInterp1 : Interpolator → ℚ → Except Err (Option ℚ)
  | .oneD pts, q => .ok (interp1dEval pts q)
  | .twoD _, _ => .error .typeError

/-- Calling an interpolator with two arguments (the 2-d branch,
`interpolators[sex](age, time)[0]`).  Calling a 1-d interpolator this way
is a Python `TypeError`. -/
def callInterp2 (sem : Interp2dSem) : Interpolator → ℚ → ℚ → Except Err (Option ℚ)
  | .twoD pts, a, t => .ok (sem pts a t)
  | .oneD _, _, _ => .error .typeError

/-! ### Dimension flags, interpolator selection and generation -/

/-- The dictionary built by `compute_covariate_age_time_dimensions`. -/
structure AtDims where
  age_1d : Bool
  time_1d : Bool
deriving DecidableEq, Repr

/-- `compute_covariate_age_time_dimensions` from `builder.py`: age (time)
is "1d" when the covariate table has more than one distinct
`(age_lower, age_upper)` (resp. `(time_lower, time_upper)`) pair. -/
def compute_covariate_age_time_dimensions (covariates : List CovRow) : AtDims :=
  { age_1d := decide (1 < ((covariates.map (fun c => (c.age_lower, c.age_upper))).dedup).length)
    time_1d := decide (1 < ((covariates.map (fun c => (c.time_lower, c.time_upper))).dedup).length) }

/-- Success condition of the `scipy.interpolate.interp2d` constructor on
scattered sample points: it calls `bisplrep(x, y, z, kx=1, ky=1, s=0)`,
which requires at least `(kx+1)*(ky+1) = 4` points and errors when all
x-coordinates or all y-coordinates coincide (no spline domain). -/
def interp2dConstructible (pts : List (ℚ × ℚ × ℚ)) : Bool :=
  decide (4 ≤ pts.length) &&
  decide (1 < ((pts.map (fun p => p.1)).dedup).length) &&
  decide (1 < ((pts.map (fun p => p.2.1)).dedup).length)

/-- `select_interpolator_based_on_at_dims` from `builder.py`.  In the
both-1d branch the source constructs `interpolate.interp2d(...)`, whose
constructor raises on point sets violating `interp2dConstructible`. -/
def select_interpolator_based_on_at_dims (covariates : List CovRow) (covar_at_dims : AtDims) :
    Except Err Interpolator :=
  if covar_at_dims.age_1d && covar_at_dims.time_1d then
    let pts := covariates.map (fun c => (c.meanAge, c.meanTime, c.mean_value))
    if interp2dConstructible pts then .ok (.twoD pts)
    else .error .interp2dConstructionFailure
  else if covar_at_dims.age_1d && !covar_at_dims.time_1d then
    .ok (.oneD (covariates.map (fun c => (c.meanAge, c.mean_value))))
  else if !covar_at_dims.age_1d && covar_at_dims.time_1d then
    .ok (.oneD (covariates.map (fun c => (c.meanTime, c.mean_value))))
  else .error .degenerateInterpolationDomain

/-- The dictionary of interpolators keyed by sex code. -/
structure Interpolators where
  femaleI : Interpolator
  maleI : Interpolator
  bothI : Interpolator
deriving DecidableEq, Repr

/-- The synthetic both-sexes covariate table of
`generate_covariate_interpolators_by_sex`: inner join of the female and
male rows on `(age_lower, age_upper, time_lower, time_upper)` (pandas
left-nested-loop order), with `mean_value` the average of the two matched
values. -/
def covariatesBothMerged (covariates : List CovRow) : List CovRow :=
  let covariates_f := covariates.filter (fun c => c.x_sex == female)
  let covariates_m := covariates.filter (fun c => c.x_sex == male)
  covariates_f.flatMap (fun f =>
    (covariates_m.filter (fun m =>
      m.age_lower == f.age_lower && m.age_upper == f.age_upper &&
      m.time_lower == f.time_lower && m.time_upper == f.time_upper)).map
      (fun m => { f with mean_value := (f.mean_value + m.mean_value) / 2 }))

/-- `generate_covariate_interpolators_by_sex` from `builder.py`. -/
def generate_covariate_interpolators_by_sex (covariates : List CovRow) (covar_at_dims : AtDims) :
    Except Err Interpolators :=
  let covars_sex := (covariates.map (fun c => c.x_sex)).dedup
  if !covars_sex.isEmpty && covars_sex.all (fun s => s == both) then
    (select_interpolator_based_on_at_dims covariates covar_at_dims).map
      (fun i => ⟨i, i, i⟩)
  else if covars_sex.all (fun s => s == female || s == male) &&
      covars_sex.contains female && covars_sex.contains male then
    do
      let iF ← select_interpolator_based_on_at_dims
        (covariates.filter (fun c => c.x_sex == female)) covar_at_dims
      let iM ← select_interpolator_based_on_at_dims
        (covariates.filter (fun c => c.x_sex == male)) covar_at_dims
      let iB ← select_interpolator_based_on_at_dims
        (covariatesBothMerged covariates) covar_at_dims
      return ⟨iF, iM, iB⟩
  else .error .unsupportedSexCoverage

/-- Membership in the interval built by `compute_covariate_age_interval`:
the union of the closed intervals `[age_lower, age_upper]` over the
covariate rows.  (The `intervals` library merges overlapping intervals,
which does not change membership in the union.) -/
def covariate_age_interval_mem (covariates : List CovRow) (x : ℚ) : Bool :=
  covariates.any (fun c => decide (c.age_lower ≤ x) && decide (x ≤ c.age_upper))

/-! ### The by-sex evaluation pipeline -/

/-- Left-to-right effectful map: a Python list comprehension whose body
may raise. -/
def mapE {α β : Type} (f : α → Except Err β) : List α → Except Err (List β)
  | [] => .ok []
  | a :: l => do
    let b ← f a
    let bs ← mapE f l
    return b :: bs

/-- `np.where(cond, vals, np.nan)` on 1-d arguments, with numpy
broadcasting; mismatched shapes raise. -/
def npWhere (mask : List Bool) (vals : List (Option ℚ)) : Except Err (List (Option ℚ)) :=
  if vals.length = mask.length then
    .ok (List.zipWith (fun b v => if b then v else none) mask vals)
  else if vals.length = 1 then
    .ok (mask.map (fun b => if b then vals.headD none else none))
  else if mask.length = 1 then
    .ok (if mask.headD true then vals else vals.map (fun _ => none))
  else .error .broadcastMismatch

/-- `compute_interpolated_covariate_values_by_sex` from `builder.py`:
split the measurements by sex code, evaluate each group against its
interpolator (feeding mean age and/or mean time depending on
`covar_at_dims`), reassemble a series indexed by the groups' labels,
sort it by label, then overwrite with NaN where the measurement's mean
age is outside `covar_age_interval` — note the mask is in original row
order while the values are in label-sorted order, and the final series
is rebuilt with a fresh `0..n-1` index. -/
def compute_interpolated_covariate_values_by_sex (sem : Interp2dSem)
    (measurements : MeasTable) (interpolators : Interpolators)
    (covar_at_dims : AtDims) (covar_age_interval : ℚ → Bool) :
    Except Err (List (ℕ × Option ℚ)) := do
  let measurements_f := measurements.filter (fun p => p.2.x_sex == female)
  let measurements_m := measurements.filter (fun p => p.2.x_sex == male)
  let measurements_both := measurements.filter (fun p => p.2.x_sex == both)
  let index_f := measurements_f.map Prod.fst
  let index_m := measurements_m.map Prod.fst
  let index_both := measurements_both.map Prod.fst
  let groups : List (Option ℚ) × List (Option ℚ) × List (Option ℚ) ←
    if covar_at_dims.age_1d && covar_at_dims.time_1d then do
      let covariate_f ← mapE (fun p =>
        callInterp2 sem interpolators.femaleI p.2.meanAge p.2.meanTime) measurements_f
      let covariate_m ← mapE (fun p =>
        callInterp2 sem interpolators.maleI p.2.meanAge p.2.meanTime) measurements_m
      let covariate_both ← mapE (fun p =>
        callInterp2 sem interpolators.bothI p.2.meanAge p.2.meanTime) measurements_both
      pure (covariate_f, covariate_m, covariate_both)
    else if covar_at_dims.age_1d && !covar_at_dims.time_1d then do
      let covariate_f ← mapE (fun p =>
        callInterp1 interpolators.femaleI p.2.meanAge) measurements_f
      let covariate_m ← mapE (fun p =>
        callInterp1 interpolators.maleI p.2.meanAge) measurements_m
      let covariate_both ← mapE (fun p =>
        callInterp1 interpolators.bothI p.2.meanAge) measurements_both
      pure (covariate_f, covariate_m, covariate_both)
    else if !covar_at_dims.age_1d && covar_at_dims.time_1d then do
      let covariate_f ← mapE (fun p =>
        callInterp1 interpolators.femaleI p.2.meanTime) measurements_f
      let covariate_m ← mapE (fun p =>
        callInterp1 interpolators.maleI p.2.meanTime) measurements_m
      let covariate_both ← mapE (fun p =>
        callInterp1 interpolators.bothI p.2.meanTime) measurements_both
      pure (covariate_f, covariate_m, covariate_both)
    else .error .nameError
  let cov_col := groups.1 ++ groups.2.1 ++ groups.2.2
  let cov_index := index_f ++ index_m ++ index_both
  let covariate_column := sortByKey Prod.fst (cov_index.zip cov_col)
  let mask := measurements.map (fun p => covar_age_interval p.2.meanAge)
  let masked ← npWhere mask (covariate_column.map Prod.snd)
  return (List.range masked.length).zip masked

/-- `assign_interpolated_covariate_values` from `builder.py`. -/
def assign_interpolated_covariate_values (sem : Interp2dSem)
    (measurements : MeasTable) (covariates : List CovRow) :
    Except Err (List (ℕ × Option ℚ)) := do
  let covar_at_dims := compute_covariate_age_time_dimensions covariates
  let interpolators ← generate_covariate_interpolators_by_sex covariates covar_at_dims
  compute_interpolated_covariate_values_by_sex sem measurements interpolators
    covar_at_dims (covariate_age_interval_mem covariates)

/-! ### Range converter -/

/-- One row of a table with categorical demographic ids, as consumed by
`convert_gbd_ids_to_dismod_values`. -/
structure IdRow where
  age_group_id : ℤ
  sex_id : ℤ
  year_id : ℤ
deriving DecidableEq, Repr

/-- One row of the age-group metadata table. -/
structure AgeGroupRow where
  age_group_id : ℤ
  age_group_years_start : ℚ
  age_group_years_end : ℚ
deriving DecidableEq, Repr

/-- One row of the converter's output: the continuous columns it adds
plus the `sex_id` column it keeps. -/
structure DismodRow where
  sex_id : ℤ
  age_lower : ℚ
  age_upper : ℚ
  time_lower : ℚ
  time_upper : ℚ
  x_sex : ℚ
deriving DecidableEq, Repr

/-- The fixed `sex_df` of `convert_gbd_ids_to_dismod_values`:
`x_sex=[-0.5, 0, 0.5]` paired with `sex_id=[2, 3, 1]`. -/
def sexDf : List (ℚ × ℤ) := [(-(1/2), 2), (0, 3), (1/2, 1)]

/-- The first inner join of `convert_gbd_ids_to_dismod_values`:
`pd.merge(original_order, age_groups_df, on="age_group_id", sort=False)`,
with each row tagged by its original position (`original_index`). -/
def agedJoin (with_ids : List IdRow) (age_groups : List AgeGroupRow) :
    List ((ℕ × IdRow) × AgeGroupRow) :=
  with_ids.enum.flatMap (fun p =>
    (age_groups.filter (fun g => g.age_group_id == p.2.age_group_id)).map (fun g => (p, g)))

/-- The second inner join of `convert_gbd_ids_to_dismod_values`:
`pd.merge(aged, sex_df, on="sex_id")`. -/
def mergedJoin (with_ids : List IdRow) (age_groups : List AgeGroupRow) :
    List (((ℕ × IdRow) × AgeGroupRow) × ℚ) :=
  (agedJoin with_ids age_groups).flatMap (fun pg =>
    (sexDf.filter (fun s => s.2 == pg.1.2.sex_id)).map (fun s => (pg, s.1)))

/-- `convert_gbd_ids_to_dismod_values` from `builder.py`: tag each row
with its original position, inner-join with the age-group metadata on
`age_group_id` and with `sex_df` on `sex_id`, raise `InputDataError`
(reporting the missing age-group ids and the row counts) if the joins
changed the row count, otherwise re-sort by original position and emit
the continuous columns.  (The input frame is modelled with the default
`0..n-1` index, so `original_index` is the row position.) -/
def convert_gbd_ids_to_dismod_values (with_ids : List IdRow) (age_groups : List AgeGroupRow) :
    Except Err (List DismodRow) :=
  let merged := mergedJoin with_ids age_groups
  if merged.length ≠ with_ids.length then
    let incoming := (with_ids.map (fun r => r.age_group_id)).dedup
    let missing := incoming.filter (fun i => !(age_groups.map (fun g => g.age_group_id)).contains i)
    .error (.inputDataMissingAgeGroups missing with_ids.length merged.length)
  else
    .ok ((sortByKey (fun x => x.1.1.1) merged).map (fun x =>
      { sex_id := x.1.1.2.sex_id
        age_lower := x.1.2.age_group_years_start
        age_upper := x.1.2.age_group_years_end
        time_lower := (x.1.1.2.year_id : ℚ)
        time_upper := (x.1.1.2.year_id : ℚ) + 1
        x_sex := x.2 }))

/-! ### The value computed for a single measurement row -/

/-- The interpolator `compute_interpolated_covariate_values_by_sex` uses
for a measurement with the given sex code (the dictionary lookup
`interpolators[x_sex]`, with every other sex code falling through to the
"both" entry — measurements with other sex codes are dropped by the three
filters, so this default is never exercised under the validity
hypotheses used below). -/
def interpFor (interpolators : Interpolators) (sx : ℚ) : Interpolator :=
  if sx == female then interpolators.femaleI
  else if sx == male then interpolators.maleI
  else interpolators.bothI

/-- The value the by-sex pipeline computes for one measurement row before
masking: the row's stratum interpolator applied to its mean age and/or
mean time as dictated by `covar_at_dims`. -/
def rawInterpolatedValue (sem : Interp2dSem) (interpolators : Interpolators)
    (covar_at_dims : AtDims) (r : MeasRow) : Except Err (Option ℚ) :=
  if covar_at_dims.age_1d && covar_at_dims.time_1d then
    callInterp2 sem (interpFor interpolators r.x_sex) r.meanAge r.meanTime
  else if covar_at_dims.age_1d && !covar_at_dims.time_1d then
    callInterp1 (interpFor interpolators r.x_sex) r.meanAge
  else if !covar_at_dims.age_1d && covar_at_dims.time_1d then
    callInterp1 (interpFor interpolators r.x_sex) r.meanTime
  else .error .nameError

/-- `rawInterpolatedValue` with a raised error read as missing (used only
to state results whose hypotheses rule the error out). -/
def rawValue (sem : Interp2dSem) (interpolators : Interpolators)
    (covar_at_dims : AtDims) (r : MeasRow) : Option ℚ :=
  match rawInterpolatedValue sem interpolators covar_at_dims r with
  | .ok v => v
  | .error _ => none

/-- Whether an interpolator's arity matches what the dimension flags make
the pipeline feed it. -/
def kindMatches (covar_at_dims : AtDims) (i : Interpolator) : Bool :=
  if covar_at_dims.age_1d && covar_at_dims.time_1d then i.isTwoD else i.isOneD

/-- The sex code `convert_gbd_ids_to_dismod_values` assigns to each valid
`sex_id` (the content of its `sex_df`): `1 ↦ 0.5`, `2 ↦ −0.5`, `3 ↦ 0`. -/
def sexCodeOf (sid : ℤ) : ℚ := if sid = 1 then 1/2 else if sid = 2 then -(1/2) else 0

/-- The metadata row `convert_gbd_ids_to_dismod_values` joins to a given
age-group id (unique when the metadata's ids are distinct). -/
def lookupAgeGroup (age_groups : List AgeGroupRow) (id0 : ℤ) : AgeGroupRow :=
  (age_groups.find? (fun g => g.age_group_id == id0)).getD ⟨id0, 0, 0⟩

/-- The row mapping stated by the spec's Range Converter contract: sex
code from the fixed `sex_id` mapping, age bounds from the metadata row
for the input's age-group id, and the demographic-year time range. -/
def expectedDismodRow (age_groups : List AgeGroupRow) (r : IdRow) : DismodRow :=
  { sex_id := r.sex_id
    age_lower := (lookupAgeGroup age_groups r.age_group_id).age_group_years_start
    age_upper := (lookupAgeGroup age_groups r.age_group_id).age_group_years_end
    time_lower := (r.year_id : ℚ)
    time_upper := (r.year_id : ℚ) + 1
    x_sex := sexCodeOf r.sex_id }

/-! ### Concrete tables used by the claims -/

instance : Inhabited MeasRow := ⟨⟨0, 0, 0, 0, 0⟩⟩

/-- A throwaway `interp2d` evaluation semantics for closed statements
whose computation never reaches a 2-d interpolator. -/
def demoSem : Interp2dSem := fun _ _ _ => none

def measRowOf (al au tl tu sx : ℚ) : MeasRow := ⟨al, au, tl, tu, sx⟩

def covRowOf (al au tl tu sx mv : ℚ) : CovRow := ⟨al, au, tl, tu, sx, mv⟩

/-- `measurements_1` of `tests/input_data/configuration/test_interpolator.py`:
nine records over mixed ages, times and sexes; the two 1978 records fall
outside the covariates' time span. -/
def measurements_1 : MeasTable :=
  [(0, measRowOf 0 18 1994 2011 0), (1, measRowOf 0 18 1994 2006 0),
   (2, measRowOf 0 18 1994 1996 0), (3, measRowOf 25 44 2004 2004 (1/2)),
   (4, measRowOf 25 34 2004 2004 (-(1/2))), (5, measRowOf 35 44 2004 2004 (-(1/2))),
   (6, measRowOf 0 99 2013 2015 0), (7, measRowOf 45 54 1978 1978 (1/2)),
   (8, measRowOf 45 54 1978 1978 (-(1/2)))]

/-- `covariates_1` of the same test module: one age group 0–125, years
1990–2017, sex "both" only, `mean_value` 0 everywhere. -/
def covariates_1 : List CovRow :=
  (List.range 28).map (fun k => covRowOf 0 125 (1990 + k) (1990 + k) 0 0)

/-- Two both-sexes covariate rows at a single age group and two times. -/
def twoTimeCovariates : List CovRow :=
  [covRowOf 0 10 2000 2000 0 3, covRowOf 0 10 2010 2010 0 7]

/-- A record table whose pandas index is `[5, 2]` rather than the
default `[0, 1]`. -/
def shuffledIndexMeasurements : MeasTable :=
  [(5, measRowOf 0 10 2000 2000 0), (2, measRowOf 0 10 2010 2010 0)]

/-- A record table with index `[1, 0]`; the record labelled 0 has mean
age 25, outside the age coverage of `twoTimeCovariates`. -/
def maskMisalignedMeasurements : MeasTable :=
  [(1, measRowOf 0 10 2000 2000 0), (0, measRowOf 20 30 2010 2010 0)]

/-- A default-indexed record table with one in-coverage and one
out-of-coverage record. -/
def maskWitnessMeasurements : MeasTable :=
  [(0, measRowOf 0 10 2000 2000 0), (1, measRowOf 20 30 2010 2010 0)]

/-- A default-indexed record table over `twoTimeCovariates`. -/
def defaultIndexMeasurements : MeasTable :=
  [(0, measRowOf 0 10 2000 2000 0), (1, measRowOf 0 10 2010 2010 0)]

/-- The claim's nearest-neighbour example record: age 0–10, time 2001,
sex both. -/
def exampleRecordTable : MeasTable := [(0, measRowOf 0 10 2001 2001 0)]

/-- The claim's nearest-neighbour example covariates: (age 0–10, time
2000, both, 5) and (age 0–10, time 2010, both, 9). -/
def exampleCovariates : List CovRow :=
  [covRowOf 0 10 2000 2000 0 5, covRowOf 0 10 2010 2010 0 9]

/-- A female+male covariate table whose female stratum has two age
groups but a single time pair (so its own determination would be 1-d over
age), while the male stratum spans two age groups and two time pairs (4
points, a constructible 2-d grid) — so the female stratum's own
dimensionality differs from the whole table's. -/
def stratumDimsCovariates : List CovRow :=
  [covRowOf 0 10 2000 2001 (-(1/2)) 1, covRowOf 10 20 2000 2001 (-(1/2)) 2,
   covRowOf 0 10 2000 2001 (1/2) 3, covRowOf 10 20 2000 2001 (1/2) 4,
   covRowOf 0 10 2005 2006 (1/2) 5, covRowOf 10 20 2005 2006 (1/2) 6]

/-- A female+male covariate table over one age group and two times. -/
def fmCovariates : List CovRow :=
  [covRowOf 0 10 2000 2000 (-(1/2)) 1, covRowOf 0 10 2010 2010 (-(1/2)) 2,
   covRowOf 0 10 2000 2000 (1/2) 3, covRowOf 0 10 2010 2010 (1/2) 5]

/-- A covariate table with sex codes `{-0.5, 0}` — the unsupported
coverage from the claim. -/
def mixedSexCovariates : List CovRow :=
  [covRowOf 0 10 2000 2000 (-(1/2)) 1, covRowOf 0 10 2010 2010 0 2]

/-- A single-row covariate table: neither age nor time varies. -/
def singleCovariate : List CovRow := [covRowOf 0 10 2000 2000 0 3]

/-- The converter metadata used by the witnesses. -/
def witnessAgeGroups : List AgeGroupRow := [⟨10, 0, 5⟩, ⟨11, 5, 10⟩]

/-! ### Basic lemmas about the sorting and argmin primitives -/

theorem argminIdx_lt_length : ∀ (l : List ℚ), l ≠ [] → argminIdx l < l.length
  | [], h => absurd rfl h
  | [_], _ => by simp [argminIdx]
  | x :: y :: ys, _ => by
    have ih := argminIdx_lt_length (y :: ys) (by simp)
    simp only [argminIdx]
    split
    · simp
    · simpa using Nat.succ_lt_succ ih

theorem argminIdx_le : ∀ (l : List ℚ) (j : ℕ), j < l.length →
    l.getD (argminIdx l) 0 ≤ l.getD j 0
  | [], j, hj => absurd hj (by simp)
  | [x], j, hj => by
    have hj0 : j = 0 := Nat.lt_one_iff.mp (by simpa using hj)
    subst hj0; simp [argminIdx]
  | x :: y :: ys, j, hj => by
    have ih := argminIdx_le (y :: ys)
    simp only [argminIdx]
    split
    · next hle =>
      match j with
      | 0 => simp
      | j + 1 =>
        have hj' : j < (y :: ys).length := by simpa using Nat.lt_of_succ_lt_succ hj
        simpa using le_trans hle (ih j hj')
    · next hgt =>
      push_neg at hgt
      match j with
      | 0 => simpa using le_of_lt hgt
      | j + 1 =>
        have hj' : j < (y :: ys).length := by simpa using Nat.lt_of_succ_lt_succ hj
        simpa using ih j hj'

theorem insertByKey_perm {α : Type} (key : α → ℕ) (a : α) :
    ∀ l : List α, List.Perm (insertByKey key a l) (a :: l)
  | [] => .refl _
  | b :: l => by
    simp only [insertByKey]
    split
    · exact .refl _
    · exact ((insertByKey_perm key a l).cons b).trans (List.Perm.swap a b l)

theorem sortByKey_perm {α : Type} (key : α → ℕ) : ∀ l : List α, List.Perm (sortByKey key l) l
  | [] => .refl _
  | a :: l => (insertByKey_perm key a (sortByKey key l)).trans ((sortByKey_perm key l).cons a)

theorem insertByKey_pairwise {α : Type} (key : α → ℕ) (a : α) (l : List α)
    (h : l.Pairwise (fun x y => key x ≤ key y)) :
    (insertByKey key a l).Pairwise (fun x y => key x ≤ key y) := by
  induction l with
  | nil => simp [insertByKey]
  | cons b l ih =>
    rcases List.pairwise_cons.mp h with ⟨hb, hl⟩
    simp only [insertByKey]
    split
    · next hab =>
      refine List.pairwise_cons.mpr ⟨?_, h⟩
      intro x hx
      rcases List.mem_cons.mp hx with rfl | hx
      · exact hab
      · exact le_trans hab (hb x hx)
    · next hab =>
      push_neg at hab
      refine List.pairwise_cons.mpr ⟨?_, ih hl⟩
      intro x hx
      rcases List.mem_cons.mp ((insertByKey_perm key a l).mem_iff.mp hx) with rfl | hx
      · exact le_of_lt hab
      · exact hb x hx

theorem sortByKey_pairwise {α : Type} (key : α → ℕ) :
    ∀ l : List α, (sortByKey key l).Pairwise (fun x y => key x ≤ key y)
  | [] => by simp [sortByKey]
  | a :: l => insertByKey_pairwise key a _ (sortByKey_pairwise key l)

/-- A list sorted (non-strictly) by key equals any strictly-key-sorted
permutation of it. -/
theorem sorted_perm_eq {α : Type} (key : α → ℕ) :
    ∀ (l c : List α), List.Perm l c → l.Pairwise (fun x y => key x ≤ key y) →
      c.Pairwise (fun x y => key x < key y) → l = c
  | l, [], hp, _, _ => hp.eq_nil
  | [], a :: c', hp, hl, hc => absurd hp.length_eq (by simp)
  | b :: l', a :: c', hp, hl, hc => by
    rcases List.pairwise_cons.mp hl with ⟨hbl, hl'⟩
    rcases List.pairwise_cons.mp hc with ⟨hac, hc'⟩
    have hb : b = a := by
      by_contra hne
      have hbmem : b ∈ a :: c' := hp.subset (List.mem_cons_self b l')
      have hbc' : b ∈ c' := by
        rcases List.mem_cons.mp hbmem with rfl | hx
        · exact absurd rfl hne
        · exact hx
      have hamem : a ∈ b :: l' := hp.symm.subset (List.mem_cons_self a c')
      have hal' : a ∈ l' := by
        rcases List.mem_cons.mp hamem with h | hx
        · exact absurd h.symm hne
        · exact hx
      exact absurd (hbl a hal') (not_le.mpr (hac b hbc'))
    subst hb
    have hp' : List.Perm l' c' := hp.cons_inv
    rw [sorted_perm_eq key l' c' hp' hl' hc']

/-- `sort_index` (and `sort_values`) recovers the canonical
strictly-key-sorted list from any permutation of it. -/
theorem sortByKey_canonical {α : Type} (key : α → ℕ) (l c : List α) (hp : List.Perm l c)
    (hc : c.Pairwise (fun x y => key x < key y)) : sortByKey key l = c :=
  sorted_perm_eq key _ c ((sortByKey_perm key l).trans hp) (sortByKey_pairwise key l) hc

theorem mapE_ok {α β : Type} (f : α → Except Err β) (g : α → β) :
    ∀ l : List α, (∀ a ∈ l, f a = .ok (g a)) → mapE f l = .ok (l.map g)
  | [], _ => rfl
  | a :: l, h => by
    have ha := h a (List.mem_cons_self a l)
    have hl := mapE_ok f g l (fun x hx => h x (List.mem_cons_of_mem a hx))
    simp only [mapE, ha, hl]; rfl

theorem zip_append_of_length_eq {α β : Type} :
    ∀ (l₁ : List α) (l₂ : List β) (r₁ : List α) (r₂ : List β), l₁.length = l₂.length →
      (l₁ ++ r₁).zip (l₂ ++ r₂) = l₁.zip l₂ ++ r₁.zip r₂
  | [], [], _, _, _ => rfl
  | a :: l₁, b :: l₂, r₁, r₂, h => by
    simp only [List.cons_append, List.zip_cons_cons]
    rw [zip_append_of_length_eq l₁ l₂ r₁ r₂ (by simpa using h)]

/-- Splitting a list into its three sex groups and mapping each is a
permutation of mapping the list, provided every element lands in exactly
one group. -/
theorem filter_three_perm_map {β γ : Type} (f g h : β → Bool) (e : β → γ) :
    ∀ l : List β,
      (∀ x ∈ l, (f x = true ∧ g x = false ∧ h x = false) ∨
        (f x = false ∧ g x = true ∧ h x = false) ∨
        (f x = false ∧ g x = false ∧ h x = true)) →
      List.Perm ((l.filter f).map e ++ (l.filter g).map e ++ (l.filter h).map e) (l.map e)
  | [], _ => .refl _
  | x :: l, hc => by
    have ih := filter_three_perm_map f g h e l
      (fun y hy => hc y (List.mem_cons_of_mem x hy))
    rcases hc x (List.mem_cons_self x l) with ⟨h1, h2, h3⟩ | ⟨h1, h2, h3⟩ | ⟨h1, h2, h3⟩
    · simp only [List.filter_cons, h1, h2, h3, if_true, Bool.false_eq_true, if_false,
        List.map_cons, List.cons_append, List.map_cons]
      exact ih.cons (e x)
    · simp only [List.filter_cons, h1, h2, h3, if_true, Bool.false_eq_true, if_false,
        List.map_cons]
      have hre : (l.filter f).map e ++ (e x :: (l.filter g).map e) ++ (l.filter h).map e
          = (l.filter f).map e ++ e x :: ((l.filter g).map e ++ (l.filter h).map e) := by
        simp
      rw [hre]
      refine List.perm_middle.trans ?_
      rw [← List.append_assoc]
      exact ih.cons (e x)
    · simp only [List.filter_cons, h1, h2, h3, if_true, Bool.false_eq_true, if_false,
        List.map_cons]
      exact List.perm_middle.trans (ih.cons (e x))

theorem isTwoD_eq {i : Interpolator} (h : i.isTwoD = true) : ∃ pts, i = .twoD pts := by
  cases i with
  | oneD pts => simp [Interpolator.isTwoD] at h
  | twoD pts => exact ⟨pts, rfl⟩

theorem isOneD_eq {i : Interpolator} (h : i.isOneD = true) : ∃ pts, i = .oneD pts := by
  cases i with
  | oneD pts => exact ⟨pts, rfl⟩
  | twoD pts => simp [Interpolator.isOneD] at h

theorem female_ne_male : female ≠ male := by norm_num [female, male]

theorem both_ne_female : both ≠ female := by norm_num [both, female]

theorem both_ne_male : both ≠ male := by norm_num [both, male]

theorem interpFor_female (is : Interpolators) : interpFor is female = is.femaleI := by
  simp [interpFor]

theorem interpFor_male (is : Interpolators) : interpFor is male = is.maleI := by
  simp only [interpFor, beq_iff_eq]
  rw [if_neg (Ne.symm female_ne_male)]
  simp

theorem interpFor_both (is : Interpolators) : interpFor is both = is.bothI := by
  simp only [interpFor, beq_iff_eq]
  rw [if_neg both_ne_female, if_neg both_ne_male]

theorem select_ok_kindMatches {covs : List CovRow} {dims : AtDims} {i : Interpolator}
    (h : select_interpolator_based_on_at_dims covs dims = .ok i) :
    kindMatches dims i = true ∧ (dims.age_1d || dims.time_1d) = true := by
  rcases dims with ⟨a, t⟩
  cases a <;> cases t
  · simp [select_interpolator_based_on_at_dims] at h
  · simp [select_interpolator_based_on_at_dims] at h
    subst h
    simp [kindMatches, Interpolator.isOneD]
  · simp [select_interpolator_based_on_at_dims] at h
    subst h
    simp [kindMatches, Interpolator.isOneD]
  · simp [select_interpolator_based_on_at_dims] at h
    split at h
    · cases h
      simp [kindMatches, Interpolator.isTwoD]
    · cases h

theorem generate_ok_kinds {covs : List CovRow} {dims : AtDims} {is : Interpolators}
    (h : generate_covariate_interpolators_by_sex covs dims = .ok is) :
    kindMatches dims is.femaleI = true ∧ kindMatches dims is.maleI = true ∧
    kindMatches dims is.bothI = true ∧ (dims.age_1d || dims.time_1d) = true := by
  simp only [generate_covariate_interpolators_by_sex] at h
  split at h
  · cases hsel : select_interpolator_based_on_at_dims covs dims with
    | error e => rw [hsel] at h; simp [Except.map] at h
    | ok i =>
      rw [hsel] at h
      simp only [Except.map, Except.ok.injEq] at h
      obtain ⟨hk, hd⟩ := select_ok_kindMatches hsel
      rw [← h]
      exact ⟨hk, hk, hk, hd⟩
  · split at h
    · cases hF : select_interpolator_based_on_at_dims
          (covs.filter (fun c => c.x_sex == female)) dims with
      | error e => rw [hF] at h; simp [Bind.bind, Except.bind] at h
      | ok iF =>
        rw [hF] at h
        cases hM : select_interpolator_based_on_at_dims
            (covs.filter (fun c => c.x_sex == male)) dims with
        | error e => rw [hM] at h; simp [Bind.bind, Except.bind] at h
        | ok iM =>
          rw [hM] at h
          cases hB : select_interpolator_based_on_at_dims
              (covariatesBothMerged covs) dims with
          | error e => rw [hB] at h; simp [Bind.bind, Except.bind] at h
          | ok iB =>
            rw [hB] at h
            simp only [Bind.bind, Except.bind, Pure.pure, Except.pure, Except.ok.injEq] at h
            obtain ⟨hkF, hdF⟩ := select_ok_kindMatches hF
            obtain ⟨hkM, _⟩ := select_ok_kindMatches hM
            obtain ⟨hkB, _⟩ := select_ok_kindMatches hB
            rw [← h]
            exact ⟨hkF, hkM, hkB, hdF⟩
    · simp at h

theorem pure_eq_ok {β : Type} (x : β) : (pure x : Except Err β) = Except.ok x := rfl

theorem zipWith_map_same {α β γ δ : Type} (f : β → γ → δ) (g : α → β) (h : α → γ) :
    ∀ l : List α, List.zipWith f (l.map g) (l.map h) = l.map (fun x => f (g x) (h x))
  | [] => rfl
  | a :: l => by simp [zipWith_map_same f g h l]

/-- Membership in a sex group, as a propositional fact. -/
theorem sex_group_cases {ms : MeasTable}
    (hsex : ∀ p ∈ ms, p.2.x_sex = female ∨ p.2.x_sex = male ∨ p.2.x_sex = both) :
    ∀ p ∈ ms,
      ((p.2.x_sex == female) = true ∧ (p.2.x_sex == male) = false ∧
        (p.2.x_sex == both) = false) ∨
      ((p.2.x_sex == female) = false ∧ (p.2.x_sex == male) = true ∧
        (p.2.x_sex == both) = false) ∨
      ((p.2.x_sex == female) = false ∧ (p.2.x_sex == male) = false ∧
        (p.2.x_sex == both) = true) := by
  intro p hp
  rcases hsex p hp with hsx | hsx | hsx
  · exact Or.inl ⟨beq_iff_eq.mpr hsx, by rw [hsx]; exact beq_eq_false_iff_ne.mpr female_ne_male,
      by rw [hsx]; exact beq_eq_false_iff_ne.mpr (Ne.symm both_ne_female)⟩
  · exact Or.inr (Or.inl ⟨by rw [hsx]; exact beq_eq_false_iff_ne.mpr (Ne.symm female_ne_male),
      beq_iff_eq.mpr hsx, by rw [hsx]; exact beq_eq_false_iff_ne.mpr (Ne.symm both_ne_male)⟩)
  · exact Or.inr (Or.inr ⟨by rw [hsx]; exact beq_eq_false_iff_ne.mpr both_ne_female,
      by rw [hsx]; exact beq_eq_false_iff_ne.mpr both_ne_male, beq_iff_eq.mpr hsx⟩)

/-- Reassembling the three sex groups as a label-indexed series and
sorting by label recovers the measurements in their original order, when
the labels are the default `0..n-1` index. -/
theorem sorted_groups_eq (ms : MeasTable) (val : ℕ × MeasRow → Option ℚ)
    (hlab : ms.map Prod.fst = List.range ms.length)
    (hsex : ∀ p ∈ ms, p.2.x_sex = female ∨ p.2.x_sex = male ∨ p.2.x_sex = both) :
    sortByKey Prod.fst
      (((ms.filter (fun p => p.2.x_sex == female)).map Prod.fst ++
        (ms.filter (fun p => p.2.x_sex == male)).map Prod.fst ++
        (ms.filter (fun p => p.2.x_sex == both)).map Prod.fst).zip
       ((ms.filter (fun p => p.2.x_sex == female)).map val ++
        (ms.filter (fun p => p.2.x_sex == male)).map val ++
        (ms.filter (fun p => p.2.x_sex == both)).map val))
      = ms.map (fun p => (p.1, val p)) := by
  have hz : ((ms.filter (fun p => p.2.x_sex == female)).map Prod.fst ++
        (ms.filter (fun p => p.2.x_sex == male)).map Prod.fst ++
        (ms.filter (fun p => p.2.x_sex == both)).map Prod.fst).zip
       ((ms.filter (fun p => p.2.x_sex == female)).map val ++
        (ms.filter (fun p => p.2.x_sex == male)).map val ++
        (ms.filter (fun p => p.2.x_sex == both)).map val)
      = (ms.filter (fun p => p.2.x_sex == female)).map (fun p => (p.1, val p)) ++
        (ms.filter (fun p => p.2.x_sex == male)).map (fun p => (p.1, val p)) ++
        (ms.filter (fun p => p.2.x_sex == both)).map (fun p => (p.1, val p)) := by
    rw [zip_append_of_length_eq _ _ _ _ (by simp),
      zip_append_of_length_eq _ _ _ _ (by simp),
      List.zip_map', List.zip_map', List.zip_map']
  rw [hz]
  apply sortByKey_canonical
  · exact filter_three_perm_map _ _ _ _ ms (sex_group_cases hsex)
  · have hfst : (ms.map (fun p => (p.1, val p))).map Prod.fst = List.range ms.length := by
      rw [List.map_map]
      exact hlab
    have h := List.pairwise_lt_range ms.length
    rw [← hfst] at h
    rw [List.pairwise_map] at h
    exact h

/-- The final `(range n).zip` step: with default labels the output pairs
each position with its own row's value. -/
theorem final_zip (ms : MeasTable) (g : ℕ × MeasRow → Option ℚ)
    (hlab : ms.map Prod.fst = List.range ms.length) :
    (List.range (ms.map g).length).zip (ms.map g) = ms.map (fun p => (p.1, g p)) := by
  rw [List.length_map, ← hlab, List.zip_map']

/-- The canonical form of `compute_interpolated_covariate_values_by_sex`:
with the default `0..n-1` index, sex codes among the three known values,
non-degenerate dimension flags, and interpolators whose arity matches the
flags, the pipeline returns one value per row in row order — the row's
own interpolated value, overwritten with missing when the row's mean age
is outside the coverage interval. -/
theorem compute_canonical (sem : Interp2dSem) (interps : Interpolators) (dims : AtDims)
    (mem : ℚ → Bool) (ms : MeasTable)
    (hlab : ms.map Prod.fst = List.range ms.length)
    (hsex : ∀ p ∈ ms, p.2.x_sex = female ∨ p.2.x_sex = male ∨ p.2.x_sex = both)
    (hdims : (dims.age_1d || dims.time_1d) = true)
    (hkf : kindMatches dims interps.femaleI = true)
    (hkm : kindMatches dims interps.maleI = true)
    (hkb : kindMatches dims interps.bothI = true) :
    compute_interpolated_covariate_values_by_sex sem ms interps dims mem
      = .ok (ms.map (fun p =>
          (p.1, if mem p.2.meanAge then rawValue sem interps dims p.2 else none))) := by
  rcases dims with ⟨a, t⟩
  have hnp : ∀ val : ℕ × MeasRow → Option ℚ,
      npWhere (ms.map (fun p => mem p.2.meanAge)) ((ms.map (fun p => (p.1, val p))).map Prod.snd)
        = .ok (ms.map (fun p => if mem p.2.meanAge then val p else none)) := by
    intro val
    have hlen : ((ms.map (fun p => (p.1, val p))).map Prod.snd).length
        = (ms.map (fun p => mem p.2.meanAge)).length := by simp
    rw [npWhere, if_pos hlen, List.map_map]
    have : (Prod.snd ∘ fun p : ℕ × MeasRow => (p.1, val p)) = val := rfl
    rw [this, zipWith_map_same]
  cases a <;> cases t
  · simp at hdims
  · -- age constant, time varying: 1-d interpolation over mean time
    obtain ⟨ptsF, hpF⟩ := isOneD_eq (by simpa [kindMatches] using hkf)
    obtain ⟨ptsM, hpM⟩ := isOneD_eq (by simpa [kindMatches] using hkm)
    obtain ⟨ptsB, hpB⟩ := isOneD_eq (by simpa [kindMatches] using hkb)
    have hcF : mapE (fun p => callInterp1 interps.femaleI p.2.meanTime)
        (ms.filter (fun p => p.2.x_sex == female))
        = .ok ((ms.filter (fun p => p.2.x_sex == female)).map
            (fun p => rawValue sem interps ⟨false, true⟩ p.2)) := by
      apply mapE_ok
      intro p hp
      have hsx : p.2.x_sex = female := beq_iff_eq.mp (List.mem_filter.mp hp).2
      simp [rawValue, rawInterpolatedValue, hsx, interpFor_female, hpF, callInterp1]
    have hcM : mapE (fun p => callInterp1 interps.maleI p.2.meanTime)
        (ms.filter (fun p => p.2.x_sex == male))
        = .ok ((ms.filter (fun p => p.2.x_sex == male)).map
            (fun p => rawValue sem interps ⟨false, true⟩ p.2)) := by
      apply mapE_ok
      intro p hp
      have hsx : p.2.x_sex = male := beq_iff_eq.mp (List.mem_filter.mp hp).2
      simp [rawValue, rawInterpolatedValue, hsx, interpFor_male, hpM, callInterp1]
    have hcB : mapE (fun p => callInterp1 interps.bothI p.2.meanTime)
        (ms.filter (fun p => p.2.x_sex == both))
        = .ok ((ms.filter (fun p => p.2.x_sex == both)).map
            (fun p => rawValue sem interps ⟨false, true⟩ p.2)) := by
      apply mapE_ok
      intro p hp
      have hsx : p.2.x_sex = both := beq_iff_eq.mp (List.mem_filter.mp hp).2
      simp [rawValue, rawInterpolatedValue, hsx, interpFor_both, hpB, callInterp1]
    simp only [compute_interpolated_covariate_values_by_sex, Bool.false_and, Bool.not_false,
      Bool.false_eq_true, if_false, Bool.true_and, if_true, hcF, hcM, hcB,
      Bind.bind, Except.bind, pure_eq_ok]
    rw [sorted_groups_eq ms (fun p => rawValue sem interps ⟨false, true⟩ p.2) hlab hsex,
      hnp (fun p => rawValue sem interps ⟨false, true⟩ p.2)]
    exact congrArg Except.ok (final_zip ms _ hlab)
  · -- age varying, time constant: 1-d interpolation over mean age
    obtain ⟨ptsF, hpF⟩ := isOneD_eq (by simpa [kindMatches] using hkf)
    obtain ⟨ptsM, hpM⟩ := isOneD_eq (by simpa [kindMatches] using hkm)
    obtain ⟨ptsB, hpB⟩ := isOneD_eq (by simpa [kindMatches] using hkb)
    have hcF : mapE (fun p => callInterp1 interps.femaleI p.2.meanAge)
        (ms.filter (fun p => p.2.x_sex == female))
        = .ok ((ms.filter (fun p => p.2.x_sex == female)).map
            (fun p => rawValue sem interps ⟨true, false⟩ p.2)) := by
      apply mapE_ok
      intro p hp
      have hsx : p.2.x_sex = female := beq_iff_eq.mp (List.mem_filter.mp hp).2
      simp [rawValue, rawInterpolatedValue, hsx, interpFor_female, hpF, callInterp1]
    have hcM : mapE (fun p => callInterp1 interps.maleI p.2.meanAge)
        (ms.filter (fun p => p.2.x_sex == male))
        = .ok ((ms.filter (fun p => p.2.x_sex == male)).map
            (fun p => rawValue sem interps ⟨true, false⟩ p.2)) := by
      apply mapE_ok
      intro p hp
      have hsx : p.2.x_sex = male := beq_iff_eq.mp (List.mem_filter.mp hp).2
      simp [rawValue, rawInterpolatedValue, hsx, interpFor_male, hpM, callInterp1]
    have hcB : mapE (fun p => callInterp1 interps.bothI p.2.meanAge)
        (ms.filter (fun p => p.2.x_sex == both))
        = .ok ((ms.filter (fun p => p.2.x_sex == both)).map
            (fun p => rawValue sem interps ⟨true, false⟩ p.2)) := by
      apply mapE_ok
      intro p hp
      have hsx : p.2.x_sex = both := beq_iff_eq.mp (List.mem_filter.mp hp).2
      simp [rawValue, rawInterpolatedValue, hsx, interpFor_both, hpB, callInterp1]
    simp only [compute_interpolated_covariate_values_by_sex, Bool.true_and, Bool.and_false,
      Bool.not_false, Bool.false_eq_true, if_false, if_true, Bool.not_true, Bool.and_true,
      hcF, hcM, hcB, Bind.bind, Except.bind, pure_eq_ok]
    rw [sorted_groups_eq ms (fun p => rawValue sem interps ⟨true, false⟩ p.2) hlab hsex,
      hnp (fun p => rawValue sem interps ⟨true, false⟩ p.2)]
    exact congrArg Except.ok (final_zip ms _ hlab)
  · -- both varying: 2-d interpolation over (mean age, mean time)
    obtain ⟨ptsF, hpF⟩ := isTwoD_eq (by simpa [kindMatches] using hkf)
    obtain ⟨ptsM, hpM⟩ := isTwoD_eq (by simpa [kindMatches] using hkm)
    obtain ⟨ptsB, hpB⟩ := isTwoD_eq (by simpa [kindMatches] using hkb)
    have hcF : mapE (fun p => callInterp2 sem interps.femaleI p.2.meanAge p.2.meanTime)
        (ms.filter (fun p => p.2.x_sex == female))
        = .ok ((ms.filter (fun p => p.2.x_sex == female)).map
            (fun p => rawValue sem interps ⟨true, true⟩ p.2)) := by
      apply mapE_ok
      intro p hp
      have hsx : p.2.x_sex = female := beq_iff_eq.mp (List.mem_filter.mp hp).2
      simp [rawValue, rawInterpolatedValue, hsx, interpFor_female, hpF, callInterp2]
    have hcM : mapE (fun p => callInterp2 sem interps.maleI p.2.meanAge p.2.meanTime)
        (ms.filter (fun p => p.2.x_sex == male))
        = .ok ((ms.filter (fun p => p.2.x_sex == male)).map
            (fun p => rawValue sem interps ⟨true, true⟩ p.2)) := by
      apply mapE_ok
      intro p hp
      have hsx : p.2.x_sex = male := beq_iff_eq.mp (List.mem_filter.mp hp).2
      simp [rawValue, rawInterpolatedValue, hsx, interpFor_male, hpM, callInterp2]
    have hcB : mapE (fun p => callInterp2 sem interps.bothI p.2.meanAge p.2.meanTime)
        (ms.filter (fun p => p.2.x_sex == both))
        = .ok ((ms.filter (fun p => p.2.x_sex == both)).map
            (fun p => rawValue sem interps ⟨true, true⟩ p.2)) := by
      apply mapE_ok
      intro p hp
      have hsx : p.2.x_sex = both := beq_iff_eq.mp (List.mem_filter.mp hp).2
      simp [rawValue, rawInterpolatedValue, hsx, interpFor_both, hpB, callInterp2]
    simp only [compute_interpolated_covariate_values_by_sex, Bool.and_self, if_true,
      hcF, hcM, hcB, Bind.bind, Except.bind, pure_eq_ok]
    rw [sorted_groups_eq ms (fun p => rawValue sem interps ⟨true, true⟩ p.2) hlab hsex,
      hnp (fun p => rawValue sem interps ⟨true, true⟩ p.2)]
    exact congrArg Except.ok (final_zip ms _ hlab)

/-! ### Lemmas about the range converter's joins -/

theorem filter_beq_singleton {α : Type} (key : α → ℤ) (k : ℤ) :
    ∀ l : List α, (l.map key).Nodup → ∀ a ∈ l, key a = k →
      l.filter (fun x => key x == k) = [a]
  | [], _, a, ha, _ => absurd ha (by simp)
  | b :: l, hn, a, ha, hk => by
    simp only [List.map_cons, List.nodup_cons] at hn
    obtain ⟨hb, hl⟩ := hn
    rcases List.mem_cons.mp ha with rfl | ha'
    · have hfb : (key a == k) = true := beq_iff_eq.mpr hk
      simp only [List.filter_cons, hfb, if_true]
      have hnil : l.filter (fun x => key x == k) = [] := by
        apply List.filter_eq_nil_iff.mpr
        intro x hx hxk
        exact hb (hk ▸ beq_iff_eq.mp hxk ▸ List.mem_map_of_mem key hx)
      rw [hnil]
    · have hne : (key b == k) = false := by
        apply beq_eq_false_iff_ne.mpr
        intro he
        have : key a ∈ l.map key := List.mem_map_of_mem key ha'
        rw [hk, ← he] at this
        exact hb this
      simp only [List.filter_cons, hne, Bool.false_eq_true, if_false]
      exact filter_beq_singleton key k l hl a ha' hk

theorem find?_beq {α : Type} (key : α → ℤ) (k : ℤ) :
    ∀ l : List α, (l.map key).Nodup → ∀ a ∈ l, key a = k →
      l.find? (fun x => key x == k) = some a
  | [], _, a, ha, _ => absurd ha (by simp)
  | b :: l, hn, a, ha, hk => by
    simp only [List.map_cons, List.nodup_cons] at hn
    obtain ⟨hb, hl⟩ := hn
    rcases List.mem_cons.mp ha with rfl | ha'
    · exact List.find?_cons_of_pos _ (beq_iff_eq.mpr hk)
    · have hne : (key b == k) = false := by
        apply beq_eq_false_iff_ne.mpr
        intro he
        have : key a ∈ l.map key := List.mem_map_of_mem key ha'
        rw [hk, ← he] at this
        exact hb this
      rw [List.find?_cons_of_neg _ (by simp [hne])]
      exact find?_beq key k l hl a ha' hk

theorem filter_beq_length_le {α : Type} (key : α → ℤ) (k : ℤ) (l : List α)
    (hn : (l.map key).Nodup) : (l.filter (fun x => key x == k)).length ≤ 1 := by
  by_cases hex : ∃ a ∈ l, key a = k
  · obtain ⟨a, ha, hk⟩ := hex
    rw [filter_beq_singleton key k l hn a ha hk]
    simp
  · push_neg at hex
    rw [List.filter_eq_nil_iff.mpr (fun x hx hxk => hex x hx (beq_iff_eq.mp hxk))]
    simp

theorem flatMap_eq_map_of_singleton {α β : Type} (f : α → List β) (g : α → β) :
    ∀ l : List α, (∀ a ∈ l, f a = [g a]) → l.flatMap f = l.map g
  | [], _ => rfl
  | a :: l, h => by
    rw [List.flatMap_cons, h a (List.mem_cons_self a l),
      flatMap_eq_map_of_singleton f g l (fun x hx => h x (List.mem_cons_of_mem a hx))]
    rfl

theorem length_flatMap_le {α β : Type} (f : α → List β) :
    ∀ l : List α, (∀ a ∈ l, (f a).length ≤ 1) → (l.flatMap f).length ≤ l.length
  | [], _ => by simp
  | a :: l, h => by
    rw [List.flatMap_cons, List.length_append, List.length_cons]
    have h1 := h a (List.mem_cons_self a l)
    have h2 := length_flatMap_le f l (fun x hx => h x (List.mem_cons_of_mem a hx))
    omega

theorem length_flatMap_lt {α β : Type} (f : α → List β) :
    ∀ l : List α, (∀ a ∈ l, (f a).length ≤ 1) → ∀ a0 ∈ l, f a0 = [] →
      (l.flatMap f).length < l.length
  | [], _, a0, ha0, _ => absurd ha0 (by simp)
  | a :: l, h, a0, ha0, hnil => by
    rw [List.flatMap_cons, List.length_append, List.length_cons]
    rcases List.mem_cons.mp ha0 with rfl | ha0'
    · rw [hnil]
      have := length_flatMap_le f l (fun x hx => h x (List.mem_cons_of_mem a0 hx))
      simpa using Nat.lt_succ_of_le this
    · have h1 := h a (List.mem_cons_self a l)
      have h2 := length_flatMap_lt f l (fun x hx => h x (List.mem_cons_of_mem a hx)) a0 ha0' hnil
      omega

theorem sexDf_filter_valid {sid : ℤ} (h : sid = 1 ∨ sid = 2 ∨ sid = 3) :
    sexDf.filter (fun s => s.2 == sid) = [(sexCodeOf sid, sid)] := by
  rcases h with rfl | rfl | rfl <;> rfl

theorem sexDf_filter_invalid {sid : ℤ} (h : ¬(sid = 1 ∨ sid = 2 ∨ sid = 3)) :
    sexDf.filter (fun s => s.2 == sid) = [] := by
  push_neg at h
  obtain ⟨h1, h2, h3⟩ := h
  apply List.filter_eq_nil_iff.mpr
  intro x hx hxk
  have hx2 : x.2 = sid := beq_iff_eq.mp hxk
  simp only [sexDf, List.mem_cons, List.not_mem_nil, or_false] at hx
  rcases hx with rfl | rfl | rfl <;> simp_all

theorem sexDf_filter_length_le (sid : ℤ) :
    (sexDf.filter (fun s => s.2 == sid)).length ≤ 1 := by
  by_cases h : sid = 1 ∨ sid = 2 ∨ sid = 3
  · rw [sexDf_filter_valid h]
    simp
  · rw [sexDf_filter_invalid h]
    simp

theorem mem_of_mem_enum {α : Type} {l : List α} {p : ℕ × α} (hp : p ∈ l.enum) : p.2 ∈ l := by
  have : p.2 ∈ l.enum.map Prod.snd := List.mem_map_of_mem Prod.snd hp
  rwa [List.enum_map_snd] at this

theorem enum_map_comp {α β : Type} (l : List α) (F : α → β) :
    l.enum.map (fun p => F p.2) = l.map F := by
  have : (fun p : ℕ × α => F p.2) = F ∘ Prod.snd := rfl
  rw [this, ← List.map_map, List.enum_map_snd]

theorem agedJoin_canonical (rows : List IdRow) (ags : List AgeGroupRow)
    (hnodup : (ags.map (fun g => g.age_group_id)).Nodup)
    (hcover : ∀ r ∈ rows, ∃ g ∈ ags, g.age_group_id = r.age_group_id) :
    agedJoin rows ags
      = rows.enum.map (fun p => (p, lookupAgeGroup ags p.2.age_group_id)) := by
  apply flatMap_eq_map_of_singleton
  intro p hp
  obtain ⟨g, hg, hgid⟩ := hcover p.2 (mem_of_mem_enum hp)
  have hfil := filter_beq_singleton (fun g : AgeGroupRow => g.age_group_id)
    p.2.age_group_id ags hnodup g hg hgid
  have hfind := find?_beq (fun g : AgeGroupRow => g.age_group_id)
    p.2.age_group_id ags hnodup g hg hgid
  have hlook : lookupAgeGroup ags p.2.age_group_id = g := by
    rw [lookupAgeGroup, hfind]
    rfl
  rw [hfil, hlook]
  rfl

theorem mergedJoin_canonical (rows : List IdRow) (ags : List AgeGroupRow)
    (hnodup : (ags.map (fun g => g.age_group_id)).Nodup)
    (hcover : ∀ r ∈ rows, ∃ g ∈ ags, g.age_group_id = r.age_group_id)
    (hsex : ∀ r ∈ rows, r.sex_id = 1 ∨ r.sex_id = 2 ∨ r.sex_id = 3) :
    mergedJoin rows ags
      = rows.enum.map (fun p =>
          ((p, lookupAgeGroup ags p.2.age_group_id), sexCodeOf p.2.sex_id)) := by
  rw [mergedJoin, agedJoin_canonical rows ags hnodup hcover]
  rw [flatMap_eq_map_of_singleton _ (fun pg => (pg, sexCodeOf pg.1.2.sex_id)) _ ?_]
  · rw [List.map_map]
    rfl
  · intro pg hpg
    obtain ⟨p, hp, rfl⟩ := List.mem_map.mp hpg
    rw [sexDf_filter_valid (hsex p.2 (mem_of_mem_enum hp))]
    rfl

theorem mergedJoin_length_le_aged (rows : List IdRow) (ags : List AgeGroupRow) :
    (mergedJoin rows ags).length ≤ (agedJoin rows ags).length := by
  apply length_flatMap_le
  intro pg hpg
  rw [List.length_map]
  exact sexDf_filter_length_le _

theorem mergedJoin_length_lt_of_missing (rows : List IdRow) (ags : List AgeGroupRow)
    (hnodup : (ags.map (fun g => g.age_group_id)).Nodup)
    (r0 : IdRow) (hr0 : r0 ∈ rows)
    (hmiss : ∀ g ∈ ags, g.age_group_id ≠ r0.age_group_id) :
    (mergedJoin rows ags).length < rows.length := by
  have haged : (agedJoin rows ags).length < rows.length := by
    obtain ⟨p0, hp0, hp0r⟩ : ∃ p0 ∈ rows.enum, p0.2 = r0 := by
      have : r0 ∈ rows.enum.map Prod.snd := by rw [List.enum_map_snd]; exact hr0
      obtain ⟨p0, hp0, h2⟩ := List.mem_map.mp this
      exact ⟨p0, hp0, h2⟩
    have hlt := length_flatMap_lt
      (fun p : ℕ × IdRow =>
        (ags.filter (fun g => g.age_group_id == p.2.age_group_id)).map (fun g => (p, g)))
      rows.enum
      (fun p _ => by rw [List.length_map]; exact filter_beq_length_le _ _ ags hnodup)
      p0 hp0
      (by
        rw [List.map_eq_nil_iff]
        apply List.filter_eq_nil_iff.mpr
        intro g hg hgk
        rw [hp0r] at hgk
        exact hmiss g hg (beq_iff_eq.mp hgk))
    rw [List.enum_length] at hlt
    exact hlt
  have hle := mergedJoin_length_le_aged rows ags
  omega

theorem mergedJoin_length_lt_of_badsex (rows : List IdRow) (ags : List AgeGroupRow)
    (hnodup : (ags.map (fun g => g.age_group_id)).Nodup)
    (hcover : ∀ r ∈ rows, ∃ g ∈ ags, g.age_group_id = r.age_group_id)
    (r0 : IdRow) (hr0 : r0 ∈ rows)
    (hbad : ¬(r0.sex_id = 1 ∨ r0.sex_id = 2 ∨ r0.sex_id = 3)) :
    (mergedJoin rows ags).length < rows.length := by
  rw [mergedJoin, agedJoin_canonical rows ags hnodup hcover]
  obtain ⟨p0, hp0, hp0r⟩ : ∃ p0 ∈ rows.enum, p0.2 = r0 := by
    have : r0 ∈ rows.enum.map Prod.snd := by rw [List.enum_map_snd]; exact hr0
    obtain ⟨p0, hp0, h2⟩ := List.mem_map.mp this
    exact ⟨p0, hp0, h2⟩
  have hlt := length_flatMap_lt
    (fun pg : (ℕ × IdRow) × AgeGroupRow =>
      (sexDf.filter (fun s => s.2 == pg.1.2.sex_id)).map (fun s => (pg, s.1)))
    (rows.enum.map (fun p => (p, lookupAgeGroup ags p.2.age_group_id)))
    (fun pg _ => by rw [List.length_map]; exact sexDf_filter_length_le _)
    (p0, lookupAgeGroup ags p0.2.age_group_id)
    (List.mem_map_of_mem _ hp0)
    (by
      rw [List.map_eq_nil_iff]
      apply sexDf_filter_invalid
      rw [hp0r]
      exact hbad)
  rw [List.length_map, List.enum_length] at hlt
  exact hlt

theorem convert_ok_canonical (rows : List IdRow) (ags : List AgeGroupRow)
    (hnodup : (ags.map (fun g => g.age_group_id)).Nodup)
    (hcover : ∀ r ∈ rows, ∃ g ∈ ags, g.age_group_id = r.age_group_id)
    (hsex : ∀ r ∈ rows, r.sex_id = 1 ∨ r.sex_id = 2 ∨ r.sex_id = 3) :
    convert_gbd_ids_to_dismod_values rows ags = .ok (rows.map (expectedDismodRow ags)) := by
  have hm := mergedJoin_canonical rows ags hnodup hcover hsex
  have hlen : (mergedJoin rows ags).length = rows.length := by
    rw [hm, List.length_map, List.enum_length]
  rw [convert_gbd_ids_to_dismod_values]
  rw [if_neg (by simp [hlen])]
  have hsort : sortByKey (fun x => x.1.1.1) (mergedJoin rows ags) = mergedJoin rows ags := by
    apply sortByKey_canonical _ _ _ (List.Perm.refl _)
    rw [hm]
    have hfst : (rows.enum.map (fun p =>
        ((p, lookupAgeGroup ags p.2.age_group_id), sexCodeOf p.2.sex_id))).map
          (fun x => x.1.1.1) = List.range rows.length := by
      rw [List.map_map]
      have : ((fun x : ((ℕ × IdRow) × AgeGroupRow) × ℚ => x.1.1.1) ∘
          (fun p : ℕ × IdRow => ((p, lookupAgeGroup ags p.2.age_group_id),
            sexCodeOf p.2.sex_id))) = Prod.fst := rfl
      rw [this, List.enum_map_fst]
    have h := List.pairwise_lt_range rows.length
    rw [← hfst] at h
    rwa [List.pairwise_map] at h
  rw [hsort, hm, List.map_map]
  rw [show ((fun x : ((ℕ × IdRow) × AgeGroupRow) × ℚ =>
      ({ sex_id := x.1.1.2.sex_id
         age_lower := x.1.2.age_group_years_start
         age_upper := x.1.2.age_group_years_end
         time_lower := (x.1.1.2.year_id : ℚ)
         time_upper := (x.1.1.2.year_id : ℚ) + 1
         x_sex := x.2 } : DismodRow)) ∘
      (fun p : ℕ × IdRow =>
        ((p, lookupAgeGroup ags p.2.age_group_id), sexCodeOf p.2.sex_id)))
      = (fun p : ℕ × IdRow => expectedDismodRow ags p.2) from rfl]
  rw [enum_map_comp]

theorem missing_filter_characterization (rows : List IdRow) (ags : List AgeGroupRow) (i : ℤ) :
    (i ∈ (rows.map (fun r => r.age_group_id)).dedup.filter
        (fun j => !(ags.map (fun g => g.age_group_id)).contains j)) ↔
      (i ∈ rows.map (fun r => r.age_group_id) ∧ i ∉ ags.map (fun g => g.age_group_id)) := by
  rw [List.mem_filter, List.mem_dedup]
  simp

/-! ### Decomposition of the interpolation entry point -/

theorem assign_ok_elim {sem : Interp2dSem} {ms : MeasTable} {covs : List CovRow}
    {out : List (ℕ × Option ℚ)}
    (hok : assign_interpolated_covariate_values sem ms covs = .ok out) :
    ∃ is, generate_covariate_interpolators_by_sex covs
        (compute_covariate_age_time_dimensions covs) = .ok is ∧
      compute_interpolated_covariate_values_by_sex sem ms is
        (compute_covariate_age_time_dimensions covs)
        (covariate_age_interval_mem covs) = .ok out := by
  have heq : assign_interpolated_covariate_values sem ms covs
      = Except.bind (generate_covariate_interpolators_by_sex covs
          (compute_covariate_age_time_dimensions covs))
          (fun is => compute_interpolated_covariate_values_by_sex sem ms is
            (compute_covariate_age_time_dimensions covs)
            (covariate_age_interval_mem covs)) := rfl
  rw [heq] at hok
  cases hg : generate_covariate_interpolators_by_sex covs
      (compute_covariate_age_time_dimensions covs) with
  | error e => rw [hg] at hok; simp [Except.bind] at hok
  | ok is =>
    rw [hg] at hok
    exact ⟨is, rfl, by simpa [Except.bind] using hok⟩

/-- Successful runs of `assign_interpolated_covariate_values` over a
default-indexed record table with valid sex codes produce exactly one
pair per row, in row order: the row's position paired with its own
interpolated value, masked by age coverage. -/
theorem assign_ok_canonical {sem : Interp2dSem} {ms : MeasTable} {covs : List CovRow}
    {out : List (ℕ × Option ℚ)}
    (hlab : ms.map Prod.fst = List.range ms.length)
    (hsex : ∀ p ∈ ms, p.2.x_sex = female ∨ p.2.x_sex = male ∨ p.2.x_sex = both)
    (hok : assign_interpolated_covariate_values sem ms covs = .ok out) :
    ∃ is, generate_covariate_interpolators_by_sex covs
        (compute_covariate_age_time_dimensions covs) = .ok is ∧
      out = ms.map (fun p =>
        (p.1, if covariate_age_interval_mem covs p.2.meanAge
          then rawValue sem is (compute_covariate_age_time_dimensions covs) p.2
          else none)) := by
  obtain ⟨is, hg, hc⟩ := assign_ok_elim hok
  obtain ⟨hkf, hkm, hkb, hd⟩ := generate_ok_kinds hg
  rw [compute_canonical sem is _ _ ms hlab hsex hd hkf hkm hkb] at hc
  exact ⟨is, hg, (Except.ok.inj hc).symm⟩

/-! ### The claims -/

/-- C6: on the end-to-end fixture — covariates with the single age group
0–125, times 1990–2017, sex "both" only and value 0 everywhere, against
the nine-record table of mixed ages, times and sexes —
`assign_interpolated_covariate_values` returns 0 for every record whose
mean age lies in [0,125] and whose mean time lies in the covariates'
1990–2017 span, and missing for the two 1978 records, without raising on
the out-of-range time queries (for any `interp2d` semantics; the run
stays on the 1-d time path). -/
theorem C6_end_to_end_scenario : ∀ sem : Interp2dSem,
    assign_interpolated_covariate_values sem measurements_1 covariates_1
      = .ok [(0, some 0), (1, some 0), (2, some 0), (3, some 0), (4, some 0),
             (5, some 0), (6, some 0), (7, none), (8, none)] := by
  intro sem
  rfl

/-- C9 counterexample: on an empty covariate table the interpolator does
not raise any dedicated empty-table error — its sex-coverage
classification rejects the empty sex set, raising the
unsupported-sex-coverage `ValueError` — and the matcher fails inside
KDTree construction; neither error is the spec's
`EmptyCovariateTableError`. -/
theorem C9_empty_covariates_counterexample :
    assign_interpolated_covariate_values demoSem [(0, measRowOf 0 10 2000 2000 0)] []
      = .error .unsupportedSexCoverage ∧
    covariate_to_measurements_nearest_favoring_same_year
        [(0, measRowOf 0 10 2000 2000 0)] [] = .error .kdtreeEmptyData ∧
    Err.unsupportedSexCoverage ≠ Err.emptyCovariateTable ∧
    Err.kdtreeEmptyData ≠ Err.emptyCovariateTable := by
  refine ⟨rfl, rfl, by decide, by decide⟩

/-- C9 (amended): for every measurements table and empty covariate
table, both strategies raise before returning any output column — the
interpolator with the unsupported-sex-coverage error (the empty sex set
fails both coverage cases) and the matcher with the KDTree
construction failure — but no dedicated `EmptyCovariateTableError`
exists in the code. -/
theorem C9_empty_covariate_table (sem : Interp2dSem) (ms : MeasTable) :
    assign_interpolated_covariate_values sem ms [] = .error .unsupportedSexCoverage ∧
    covariate_to_measurements_nearest_favoring_same_year ms [] = .error .kdtreeEmptyData :=
  ⟨rfl, rfl⟩

/-- C3: the nearest-neighbour matcher assigns each record the
`mean_value` of the covariate row whose feature point
`(mean age / 240, mean time, sex)` minimises the Euclidean distance
(equivalently the squared distance) to the record's feature point, with
no masking; in particular, on the claim's example the record at
(age 0–10, time 2001, both) receives value 5 from the time-2000 row. -/
theorem C3_nearest_neighbor :
    (∀ (ms : MeasTable) (covs : List CovRow), covs ≠ [] →
      ∃ col, covariate_to_measurements_nearest_favoring_same_year ms covs = .ok col ∧
        col.length = ms.length ∧
        ∀ i, i < ms.length →
          (col.getD i (0, 0)
            = ((ms.getD i (0, default)).1,
               (covs.getD (argminIdx ((covs.map covFeature).map
                 (fun c => distSq c (measFeature (ms.getD i (0, default)).2)))) default).mean_value)) ∧
          argminIdx ((covs.map covFeature).map
            (fun c => distSq c (measFeature (ms.getD i (0, default)).2))) < covs.length ∧
          ∀ j, j < covs.length →
            ((covs.map covFeature).map
              (fun c => distSq c (measFeature (ms.getD i (0, default)).2))).getD
                (argminIdx ((covs.map covFeature).map
                  (fun c => distSq c (measFeature (ms.getD i (0, default)).2)))) 0
              ≤ ((covs.map covFeature).map
                  (fun c => distSq c (measFeature (ms.getD i (0, default)).2))).getD j 0) ∧
    covariate_to_measurements_nearest_favoring_same_year exampleRecordTable exampleCovariates
      = .ok [(0, 5)] := by
  constructor
  · intro ms covs hne
    rw [covariate_to_measurements_nearest_favoring_same_year,
      if_neg (by simp [List.isEmpty_iff, hne])]
    refine ⟨_, rfl, by rw [List.length_map], ?_⟩
    intro i hi
    have hdlen : ∀ r : MeasRow, ((covs.map covFeature).map
        (fun c => distSq c (measFeature r))).length = covs.length := by
      intro r
      rw [List.length_map, List.length_map]
    refine ⟨?_, ?_, ?_⟩
    · rw [List.getD_eq_getElem _ _ (by rw [List.length_map]; exact hi),
        List.getElem_map, List.getD_eq_getElem _ _ hi]
    · have hne2 : ((covs.map covFeature).map
          (fun c => distSq c (measFeature (ms.getD i (0, default)).2))) ≠ [] := by
        intro hcon
        apply hne
        have := congrArg List.length hcon
        rw [hdlen] at this
        exact List.length_eq_zero.mp this
      have := argminIdx_lt_length _ hne2
      rwa [hdlen] at this
    · intro j hj
      exact argminIdx_le _ j (by rw [hdlen]; exact hj)
  · rfl

theorem C3_nearest_neighbor_witness :
    ∃ col, covariate_to_measurements_nearest_favoring_same_year
        exampleRecordTable exampleCovariates = .ok col ∧
      col.length = exampleRecordTable.length ∧
      ∀ i, i < exampleRecordTable.length →
        (col.getD i (0, 0)
          = ((exampleRecordTable.getD i (0, default)).1,
             (exampleCovariates.getD (argminIdx ((exampleCovariates.map covFeature).map
               (fun c => distSq c (measFeature (exampleRecordTable.getD i (0, default)).2))))
               default).mean_value)) ∧
        argminIdx ((exampleCovariates.map covFeature).map
          (fun c => distSq c (measFeature (exampleRecordTable.getD i (0, default)).2)))
            < exampleCovariates.length ∧
        ∀ j, j < exampleCovariates.length →
          ((exampleCovariates.map covFeature).map
            (fun c => distSq c (measFeature (exampleRecordTable.getD i (0, default)).2))).getD
              (argminIdx ((exampleCovariates.map covFeature).map
                (fun c => distSq c (measFeature (exampleRecordTable.getD i (0, default)).2)))) 0
            ≤ ((exampleCovariates.map covFeature).map
                (fun c => distSq c (measFeature (exampleRecordTable.getD i (0, default)).2))).getD
                j 0 :=
  C3_nearest_neighbor.1 exampleRecordTable exampleCovariates (by decide)

/-- C1 counterexample: for a record table with index `[5, 2]`, the
interpolation strategy returns a column whose index is the fresh default
`[0, 1]` — the original row identity is lost. -/
theorem C1_row_identity_counterexample :
    assign_interpolated_covariate_values demoSem shuffledIndexMeasurements twoTimeCovariates
      = .ok [(0, some 7), (1, some 3)] ∧
    shuffledIndexMeasurements.map Prod.fst = [5, 2] ∧
    ([0, 1] : List ℕ) ≠ [5, 2] := by
  refine ⟨by decide, by decide, by decide⟩

/-- C1 (amended): the nearest-neighbour matcher always returns one value
per record carrying the input's index in the original order; the
interpolation strategy returns a column of the input's length but
re-indexed with the fresh default `0..n-1` index, so it carries the
input's row identity exactly when the input already uses the default
index (and its sex codes are among the three known values). -/
theorem C1_output_length_and_identity (sem : Interp2dSem) (ms : MeasTable)
    (covs : List CovRow)
    (hlab : ms.map Prod.fst = List.range ms.length)
    (hsex : ∀ p ∈ ms, p.2.x_sex = female ∨ p.2.x_sex = male ∨ p.2.x_sex = both) :
    (∀ ms2 : MeasTable, covs ≠ [] →
      ∃ col, covariate_to_measurements_nearest_favoring_same_year ms2 covs = .ok col ∧
        col.map Prod.fst = ms2.map Prod.fst ∧ col.length = ms2.length) ∧
    (∀ out, assign_interpolated_covariate_values sem ms covs = .ok out →
      out.map Prod.fst = ms.map Prod.fst ∧ out.length = ms.length) := by
  constructor
  · intro ms2 hne
    rw [covariate_to_measurements_nearest_favoring_same_year,
      if_neg (by simp [List.isEmpty_iff, hne])]
    refine ⟨_, rfl, ?_, by rw [List.length_map]⟩
    rw [List.map_map]
    rfl
  · intro out hok
    obtain ⟨is, _, rfl⟩ := assign_ok_canonical hlab hsex hok
    constructor
    · rw [List.map_map]
      rfl
    · rw [List.length_map]

theorem C1_output_length_and_identity_witness :
    (∃ col, covariate_to_measurements_nearest_favoring_same_year
        defaultIndexMeasurements twoTimeCovariates = .ok col ∧
      col.map Prod.fst = defaultIndexMeasurements.map Prod.fst ∧
      col.length = defaultIndexMeasurements.length) ∧
    (([(0, some 3), (1, some 7)] : List (ℕ × Option ℚ)).map Prod.fst
        = defaultIndexMeasurements.map Prod.fst ∧
      ([(0, some 3), (1, some 7)] : List (ℕ × Option ℚ)).length
        = defaultIndexMeasurements.length) := by
  have h := C1_output_length_and_identity demoSem defaultIndexMeasurements twoTimeCovariates
    (by decide) (by decide)
  exact ⟨h.1 defaultIndexMeasurements (by decide), h.2 [(0, some 3), (1, some 7)] (by decide)⟩

/-- C2 counterexample: with a non-default index `[1, 0]`, the record
labelled 0 has mean age 25, strictly outside the age coverage of
`twoTimeCovariates` ([0, 10]), yet the returned column carries the
numeric value 7 at label 0: the mask is applied in original row order
while the values were sorted by label, so an out-of-coverage record
keeps a number. -/
theorem C2_coverage_masking_counterexample :
    assign_interpolated_covariate_values demoSem maskMisalignedMeasurements twoTimeCovariates
      = .ok [(0, some 7), (1, none)] ∧
    maskMisalignedMeasurements.map Prod.fst = [1, 0] ∧
    (maskMisalignedMeasurements.getD 1 (0, default)).2.meanAge = 25 ∧
    covariate_age_interval_mem twoTimeCovariates 25 = false ∧
    (some (7 : ℚ) : Option ℚ) ≠ none := by
  refine ⟨by decide, by decide, by decide, by decide, by decide⟩

/-- C2 (amended): over a default-indexed record table with valid sex
codes, every successful interpolation run assigns position `i` its own
row's value: missing when the row's mean age is outside the union of the
covariates' closed age intervals, and the row's interpolated value when
it is inside.  (For a non-default index the mask is applied positionally
against label-sorted values, and the guarantee fails — see the
counterexample.) -/
theorem C2_coverage_masking (sem : Interp2dSem) (ms : MeasTable) (covs : List CovRow)
    (hlab : ms.map Prod.fst = List.range ms.length)
    (hsex : ∀ p ∈ ms, p.2.x_sex = female ∨ p.2.x_sex = male ∨ p.2.x_sex = both)
    (out : List (ℕ × Option ℚ))
    (hok : assign_interpolated_covariate_values sem ms covs = .ok out)
    (i : ℕ) (hi : i < ms.length) :
    ∃ is, generate_covariate_interpolators_by_sex covs
        (compute_covariate_age_time_dimensions covs) = .ok is ∧
      out.getD i (0, none)
        = ((ms.getD i (0, default)).1,
           if covariate_age_interval_mem covs (ms.getD i (0, default)).2.meanAge
           then rawValue sem is (compute_covariate_age_time_dimensions covs)
             (ms.getD i (0, default)).2
           else none) := by
  obtain ⟨is, hg, rfl⟩ := assign_ok_canonical hlab hsex hok
  refine ⟨is, hg, ?_⟩
  rw [List.getD_eq_getElem _ _ (by rw [List.length_map]; exact hi),
    List.getElem_map, List.getD_eq_getElem _ _ hi]

theorem C2_coverage_masking_witness :
    (∃ is, generate_covariate_interpolators_by_sex twoTimeCovariates
        (compute_covariate_age_time_dimensions twoTimeCovariates) = .ok is ∧
      ([(0, some 3), (1, none)] : List (ℕ × Option ℚ)).getD 0 (0, none)
        = ((maskWitnessMeasurements.getD 0 (0, default)).1,
           if covariate_age_interval_mem twoTimeCovariates
               (maskWitnessMeasurements.getD 0 (0, default)).2.meanAge
           then rawValue demoSem is (compute_covariate_age_time_dimensions twoTimeCovariates)
             (maskWitnessMeasurements.getD 0 (0, default)).2
           else none)) ∧
    (∃ is, generate_covariate_interpolators_by_sex twoTimeCovariates
        (compute_covariate_age_time_dimensions twoTimeCovariates) = .ok is ∧
      ([(0, some 3), (1, none)] : List (ℕ × Option ℚ)).getD 1 (0, none)
        = ((maskWitnessMeasurements.getD 1 (0, default)).1,
           if covariate_age_interval_mem twoTimeCovariates
               (maskWitnessMeasurements.getD 1 (0, default)).2.meanAge
           then rawValue demoSem is (compute_covariate_age_time_dimensions twoTimeCovariates)
             (maskWitnessMeasurements.getD 1 (0, default)).2
           else none)) :=
  ⟨C2_coverage_masking demoSem maskWitnessMeasurements twoTimeCovariates (by decide) (by decide)
      [(0, some 3), (1, none)] (by decide) 0 (by decide),
   C2_coverage_masking demoSem maskWitnessMeasurements twoTimeCovariates (by decide) (by decide)
      [(0, some 3), (1, none)] (by decide) 1 (by decide)⟩

theorem isEmpty_false_of_ne_nil {α : Type} {l : List α} (h : l ≠ []) : l.isEmpty = false := by
  cases l with
  | nil => exact absurd rfl h
  | cons a l => rfl

theorem ne_nil_of_isEmpty_false {α : Type} {l : List α} (h : l.isEmpty = false) : l ≠ [] := by
  cases l with
  | nil => simp [List.isEmpty] at h
  | cons a l => simp

/-- The first branch condition of `generate_covariate_interpolators_by_sex`
(`len(covars_sex) and covars_sex.issubset({0})`), as a proposition. -/
theorem cond_both_only_iff (covs : List CovRow) :
    (!((covs.map (fun c => c.x_sex)).dedup).isEmpty &&
      ((covs.map (fun c => c.x_sex)).dedup).all (fun s => s == both)) = true ↔
    ((covs.map (fun c => c.x_sex)).dedup ≠ [] ∧
      ∀ s ∈ (covs.map (fun c => c.x_sex)).dedup, s = both) := by
  rw [Bool.and_eq_true, Bool.not_eq_true', List.all_eq_true]
  constructor
  · rintro ⟨h1, h2⟩
    exact ⟨ne_nil_of_isEmpty_false h1, fun s hs => beq_iff_eq.mp (h2 s hs)⟩
  · rintro ⟨h1, h2⟩
    exact ⟨isEmpty_false_of_ne_nil h1, fun s hs => beq_iff_eq.mpr (h2 s hs)⟩

/-- The second branch condition of
`generate_covariate_interpolators_by_sex`
(`covars_sex.issubset({-0.5, 0.5}) and covars_sex.issuperset({-0.5, 0.5})`),
as a proposition. -/
theorem cond_female_male_iff (covs : List CovRow) :
    (((covs.map (fun c => c.x_sex)).dedup).all (fun s => s == female || s == male) &&
      ((covs.map (fun c => c.x_sex)).dedup).contains female &&
      ((covs.map (fun c => c.x_sex)).dedup).contains male) = true ↔
    (female ∈ (covs.map (fun c => c.x_sex)).dedup ∧
      male ∈ (covs.map (fun c => c.x_sex)).dedup ∧
      ∀ s ∈ (covs.map (fun c => c.x_sex)).dedup, s = female ∨ s = male) := by
  rw [Bool.and_eq_true, Bool.and_eq_true, List.all_eq_true]
  constructor
  · rintro ⟨⟨h1, h2⟩, h3⟩
    refine ⟨?_, ?_, fun s hs => ?_⟩
    · rw [List.contains_eq_any_beq] at h2
      obtain ⟨a, ha, hba⟩ := List.any_eq_true.mp h2
      exact (beq_iff_eq.mp hba) ▸ ha
    · rw [List.contains_eq_any_beq] at h3
      obtain ⟨a, ha, hba⟩ := List.any_eq_true.mp h3
      exact (beq_iff_eq.mp hba) ▸ ha
    · have hb := h1 s hs
      simp only [Bool.or_eq_true, beq_iff_eq] at hb
      exact hb
  · rintro ⟨h1, h2, h3⟩
    refine ⟨⟨fun s hs => ?_, ?_⟩, ?_⟩
    · rcases h3 s hs with rfl | rfl
      · simp
      · simp
    · rw [List.contains_eq_any_beq]
      exact List.any_eq_true.mpr ⟨female, h1, by simp⟩
    · rw [List.contains_eq_any_beq]
      exact List.any_eq_true.mpr ⟨male, h2, by simp⟩

/-- C4: `generate_covariate_interpolators_by_sex` classifies the set of
distinct covariate sex codes into exactly three cases: non-empty and
both-only — one interpolator built from the whole table and reused for
female, both and male; exactly `{female, male}` — separate female and
male interpolators plus a synthetic "both" interpolator from the inner
join of the female and male rows on the four range columns with averaged
`mean_value`; anything else — the unsupported-sex-coverage error. -/
theorem C4_sex_classification (covs : List CovRow) (dims : AtDims) :
    (((covs.map (fun c => c.x_sex)).dedup ≠ [] ∧
        ∀ s ∈ (covs.map (fun c => c.x_sex)).dedup, s = both) →
      generate_covariate_interpolators_by_sex covs dims
        = (select_interpolator_based_on_at_dims covs dims).map (fun i => ⟨i, i, i⟩)) ∧
    ((female ∈ (covs.map (fun c => c.x_sex)).dedup ∧
        male ∈ (covs.map (fun c => c.x_sex)).dedup ∧
        ∀ s ∈ (covs.map (fun c => c.x_sex)).dedup, s = female ∨ s = male) →
      generate_covariate_interpolators_by_sex covs dims
        = do
            let iF ← select_interpolator_based_on_at_dims
              (covs.filter (fun c => c.x_sex == female)) dims
            let iM ← select_interpolator_based_on_at_dims
              (covs.filter (fun c => c.x_sex == male)) dims
            let iB ← select_interpolator_based_on_at_dims (covariatesBothMerged covs) dims
            return ⟨iF, iM, iB⟩) ∧
    ((¬((covs.map (fun c => c.x_sex)).dedup ≠ [] ∧
          ∀ s ∈ (covs.map (fun c => c.x_sex)).dedup, s = both) ∧
      ¬(female ∈ (covs.map (fun c => c.x_sex)).dedup ∧
          male ∈ (covs.map (fun c => c.x_sex)).dedup ∧
          ∀ s ∈ (covs.map (fun c => c.x_sex)).dedup, s = female ∨ s = male)) →
      generate_covariate_interpolators_by_sex covs dims
        = .error .unsupportedSexCoverage) := by
  refine ⟨?_, ?_, ?_⟩
  · intro h
    simp only [generate_covariate_interpolators_by_sex]
    rw [if_pos ((cond_both_only_iff covs).mpr h)]
  · intro h
    have hb1 : (!((covs.map (fun c => c.x_sex)).dedup).isEmpty &&
        ((covs.map (fun c => c.x_sex)).dedup).all (fun s => s == both)) = false := by
      by_contra hb
      rw [Bool.not_eq_false] at hb
      have := ((cond_both_only_iff covs).mp hb).2 female h.1
      exact both_ne_female this.symm
    simp only [generate_covariate_interpolators_by_sex]
    rw [if_neg (by rw [hb1]; simp), if_pos ((cond_female_male_iff covs).mpr h)]
  · intro h
    have hb1 : (!((covs.map (fun c => c.x_sex)).dedup).isEmpty &&
        ((covs.map (fun c => c.x_sex)).dedup).all (fun s => s == both)) = false := by
      by_contra hb
      rw [Bool.not_eq_false] at hb
      exact h.1 ((cond_both_only_iff covs).mp hb)
    have hb2 : (((covs.map (fun c => c.x_sex)).dedup).all
          (fun s => s == female || s == male) &&
        ((covs.map (fun c => c.x_sex)).dedup).contains female &&
        ((covs.map (fun c => c.x_sex)).dedup).contains male) = false := by
      by_contra hb
      rw [Bool.not_eq_false] at hb
      exact h.2 ((cond_female_male_iff covs).mp hb)
    simp only [generate_covariate_interpolators_by_sex]
    rw [if_neg (by rw [hb1]; simp), if_neg (by rw [hb2]; simp)]

theorem C4_sex_classification_witness :
    (generate_covariate_interpolators_by_sex twoTimeCovariates ⟨false, true⟩
      = (select_interpolator_based_on_at_dims twoTimeCovariates ⟨false, true⟩).map
          (fun i => ⟨i, i, i⟩)) ∧
    (generate_covariate_interpolators_by_sex fmCovariates ⟨false, true⟩
      = do
          let iF ← select_interpolator_based_on_at_dims
            (fmCovariates.filter (fun c => c.x_sex == female)) ⟨false, true⟩
          let iM ← select_interpolator_based_on_at_dims
            (fmCovariates.filter (fun c => c.x_sex == male)) ⟨false, true⟩
          let iB ← select_interpolator_based_on_at_dims (covariatesBothMerged fmCovariates)
            ⟨false, true⟩
          return ⟨iF, iM, iB⟩) ∧
    (generate_covariate_interpolators_by_sex mixedSexCovariates ⟨false, true⟩
      = .error .unsupportedSexCoverage) :=
  ⟨(C4_sex_classification twoTimeCovariates ⟨false, true⟩).1 (by decide),
   (C4_sex_classification fmCovariates ⟨false, true⟩).2.1 (by decide),
   (C4_sex_classification mixedSexCovariates ⟨false, true⟩).2.2 (by decide)⟩

theorem select_degenerate (cs : List CovRow) (dims : AtDims)
    (ha : dims.age_1d = false) (ht : dims.time_1d = false) :
    select_interpolator_based_on_at_dims cs dims = .error .degenerateInterpolationDomain := by
  rcases dims with ⟨a, t⟩
  simp only at ha ht
  subst ha
  subst ht
  rfl

/-- C5 counterexample: on `stratumDimsCovariates` the whole-table flags
are (age variable, time variable), so the code attempts a 2-d
interpolator for every stratum — including the female stratum, whose own
rows have a single distinct time pair and only two sample points.  Were
the flags determined per stratum, as the claim says, the female stratum
would get the 1-d age interpolator built from its two points; instead
the code hands its two points to the 2-d constructor, which fails inside
scipy `interp2d` (`bisplrep` needs at least 4 points), so the generator
raises rather than returning interpolators. -/
theorem C5_per_stratum_dims_counterexample :
    compute_covariate_age_time_dimensions stratumDimsCovariates = ⟨true, true⟩ ∧
    ((stratumDimsCovariates.filter (fun c => c.x_sex == female)).map
        (fun c => (c.time_lower, c.time_upper))).dedup.length = 1 ∧
    select_interpolator_based_on_at_dims
        (stratumDimsCovariates.filter (fun c => c.x_sex == female))
        (compute_covariate_age_time_dimensions
          (stratumDimsCovariates.filter (fun c => c.x_sex == female)))
      = .ok (.oneD [(5, 1), (15, 2)]) ∧
    generate_covariate_interpolators_by_sex stratumDimsCovariates
        (compute_covariate_age_time_dimensions stratumDimsCovariates)
      = .error .interp2dConstructionFailure := by
  refine ⟨by decide, by decide, by decide, by decide⟩

/-- C5 (amended): the dimensionality flags are computed once from the
whole covariate table and shared by every stratum: when both flags are
set the code attempts a 2-d interpolator over (mean age, mean time) of
each stratum's rows — succeeding exactly when the stratum's points meet
the scipy `interp2d` constructor's requirements, and failing inside the
constructor otherwise (as on any stratum that is per-stratum degenerate,
having fewer than 4 points or a constant coordinate); when exactly one
flag is set each stratum's interpolator is 1-d over that axis; when
neither is set the selection raises the degenerate-domain error, which
the generator propagates for any covariate table whose sex coverage is
otherwise acceptable. -/
theorem C5_global_dims (covs : List CovRow) :
    (∀ is, generate_covariate_interpolators_by_sex covs
        (compute_covariate_age_time_dimensions covs) = .ok is →
      kindMatches (compute_covariate_age_time_dimensions covs) is.femaleI = true ∧
      kindMatches (compute_covariate_age_time_dimensions covs) is.maleI = true ∧
      kindMatches (compute_covariate_age_time_dimensions covs) is.bothI = true ∧
      ((compute_covariate_age_time_dimensions covs).age_1d ||
        (compute_covariate_age_time_dimensions covs).time_1d) = true) ∧
    (∀ (cs : List CovRow) (dims : AtDims) (i : Interpolator),
      select_interpolator_based_on_at_dims cs dims = .ok i →
      (dims.age_1d = true ∧ dims.time_1d = true →
        i = .twoD (cs.map (fun c => (c.meanAge, c.meanTime, c.mean_value)))) ∧
      (dims.age_1d = true ∧ dims.time_1d = false →
        i = .oneD (cs.map (fun c => (c.meanAge, c.mean_value)))) ∧
      (dims.age_1d = false ∧ dims.time_1d = true →
        i = .oneD (cs.map (fun c => (c.meanTime, c.mean_value))))) ∧
    (∀ (cs : List CovRow) (dims : AtDims),
      dims.age_1d = true → dims.time_1d = true →
      interp2dConstructible
          (cs.map (fun c => (c.meanAge, c.meanTime, c.mean_value))) = false →
      select_interpolator_based_on_at_dims cs dims
        = .error .interp2dConstructionFailure) ∧
    ((compute_covariate_age_time_dimensions covs).age_1d = false →
      (compute_covariate_age_time_dimensions covs).time_1d = false →
      (((covs.map (fun c => c.x_sex)).dedup ≠ [] ∧
          ∀ s ∈ (covs.map (fun c => c.x_sex)).dedup, s = both) ∨
        (female ∈ (covs.map (fun c => c.x_sex)).dedup ∧
          male ∈ (covs.map (fun c => c.x_sex)).dedup ∧
          ∀ s ∈ (covs.map (fun c => c.x_sex)).dedup, s = female ∨ s = male)) →
      generate_covariate_interpolators_by_sex covs
        (compute_covariate_age_time_dimensions covs)
        = .error .degenerateInterpolationDomain) := by
  refine ⟨?_, ?_, ?_, ?_⟩
  · intro is h
    exact generate_ok_kinds h
  · intro cs dims i h
    rcases dims with ⟨a, t⟩
    cases a <;> cases t
    · simp [select_interpolator_based_on_at_dims] at h
    · simp [select_interpolator_based_on_at_dims] at h
      subst h
      exact ⟨fun hd => absurd hd.1 (by simp), fun hd => absurd hd.1 (by simp), fun _ => rfl⟩
    · simp [select_interpolator_based_on_at_dims] at h
      subst h
      exact ⟨fun hd => absurd hd.2 (by simp), fun _ => rfl, fun hd => absurd hd.1 (by simp)⟩
    · simp [select_interpolator_based_on_at_dims] at h
      split at h
      · cases h
        exact ⟨fun _ => rfl, fun hd => absurd hd.2 (by simp), fun hd => absurd hd.1 (by simp)⟩
      · cases h
  · intro cs dims ha ht hc
    rcases dims with ⟨a, t⟩
    simp only at ha ht
    subst ha
    subst ht
    simp [select_interpolator_based_on_at_dims, hc]
  · intro ha ht hcase
    rcases hcase with h1 | h2
    · rw [(C4_sex_classification covs (compute_covariate_age_time_dimensions covs)).1 h1,
        select_degenerate covs _ ha ht]
      rfl
    · rw [(C4_sex_classification covs (compute_covariate_age_time_dimensions covs)).2.1 h2,
        select_degenerate (covs.filter (fun c => c.x_sex == female)) _ ha ht]
      rfl

theorem C5_global_dims_witness :
    (kindMatches (compute_covariate_age_time_dimensions twoTimeCovariates)
        (Interpolator.oneD [(2000, 3), (2010, 7)]) = true ∧
      kindMatches (compute_covariate_age_time_dimensions twoTimeCovariates)
        (Interpolator.oneD [(2000, 3), (2010, 7)]) = true ∧
      kindMatches (compute_covariate_age_time_dimensions twoTimeCovariates)
        (Interpolator.oneD [(2000, 3), (2010, 7)]) = true ∧
      ((compute_covariate_age_time_dimensions twoTimeCovariates).age_1d ||
        (compute_covariate_age_time_dimensions twoTimeCovariates).time_1d) = true) ∧
    ((⟨true, true⟩ : AtDims).age_1d = true ∧ (⟨true, true⟩ : AtDims).time_1d = true →
      Interpolator.twoD (stratumDimsCovariates.map
          (fun c => (c.meanAge, c.meanTime, c.mean_value)))
        = .twoD (stratumDimsCovariates.map
            (fun c => (c.meanAge, c.meanTime, c.mean_value)))) ∧
    (select_interpolator_based_on_at_dims
        (stratumDimsCovariates.filter (fun c => c.x_sex == female)) ⟨true, true⟩
      = .error .interp2dConstructionFailure) ∧
    (generate_covariate_interpolators_by_sex singleCovariate
        (compute_covariate_age_time_dimensions singleCovariate)
      = .error .degenerateInterpolationDomain) := by
  refine ⟨?_, ?_, ?_, ?_⟩
  · have h := (C5_global_dims twoTimeCovariates).1
      ⟨.oneD [(2000, 3), (2010, 7)], .oneD [(2000, 3), (2010, 7)],
        .oneD [(2000, 3), (2010, 7)]⟩ (by decide)
    exact h
  · exact fun hd => ((C5_global_dims stratumDimsCovariates).2.1 stratumDimsCovariates
      ⟨true, true⟩ (.twoD (stratumDimsCovariates.map
        (fun c => (c.meanAge, c.meanTime, c.mean_value)))) (by decide)).1 hd
  · exact (C5_global_dims stratumDimsCovariates).2.2.1
      (stratumDimsCovariates.filter (fun c => c.x_sex == female)) ⟨true, true⟩
      rfl rfl (by decide)
  · exact (C5_global_dims singleCovariate).2.2.2 (by decide) (by decide)
      (Or.inl (by decide))

/-- C7: if any age-group id in the input is absent from the age-group
metadata (whose ids are distinct, it being a mapping), the range
conversion raises the input-data error rather than returning an output;
the error reports the set of missing ids — exactly the input ids with no
metadata entry, including the offending id — together with the original
row count and the (strictly smaller) matched row count, from which the
number of unmatched rows follows.  No row is silently dropped. -/
theorem C7_missing_age_group (rows : List IdRow) (ags : List AgeGroupRow)
    (hnodup : (ags.map (fun g => g.age_group_id)).Nodup)
    (r0 : IdRow) (hr0 : r0 ∈ rows)
    (hmiss : ∀ g ∈ ags, g.age_group_id ≠ r0.age_group_id) :
    ∃ missing matched,
      convert_gbd_ids_to_dismod_values rows ags
        = .error (.inputDataMissingAgeGroups missing rows.length matched) ∧
      matched < rows.length ∧
      (∀ i : ℤ, i ∈ missing ↔ i ∈ rows.map (fun r => r.age_group_id) ∧
        i ∉ ags.map (fun g => g.age_group_id)) ∧
      r0.age_group_id ∈ missing := by
  have hlt := mergedJoin_length_lt_of_missing rows ags hnodup r0 hr0 hmiss
  refine ⟨(rows.map (fun r => r.age_group_id)).dedup.filter
      (fun i => !(ags.map (fun g => g.age_group_id)).contains i),
    (mergedJoin rows ags).length, ?_, hlt, ?_, ?_⟩
  · simp only [convert_gbd_ids_to_dismod_values]
    rw [if_pos (Nat.ne_of_lt hlt)]
  · intro i
    exact missing_filter_characterization rows ags i
  · apply (missing_filter_characterization rows ags r0.age_group_id).mpr
    refine ⟨List.mem_map_of_mem _ hr0, ?_⟩
    intro hmem
    obtain ⟨g, hg, hgid⟩ := List.mem_map.mp hmem
    exact hmiss g hg hgid

theorem C7_missing_age_group_witness :
    ∃ missing matched,
      convert_gbd_ids_to_dismod_values [⟨999, 1, 2000⟩] witnessAgeGroups
        = .error (.inputDataMissingAgeGroups missing [(⟨999, 1, 2000⟩ : IdRow)].length matched) ∧
      matched < [(⟨999, 1, 2000⟩ : IdRow)].length ∧
      (∀ i : ℤ, i ∈ missing ↔
        i ∈ [(⟨999, 1, 2000⟩ : IdRow)].map (fun r => r.age_group_id) ∧
        i ∉ witnessAgeGroups.map (fun g => g.age_group_id)) ∧
      (⟨999, 1, 2000⟩ : IdRow).age_group_id ∈ missing :=
  C7_missing_age_group [⟨999, 1, 2000⟩] witnessAgeGroups (by decide)
    ⟨999, 1, 2000⟩ (by decide) (by decide)

/-- C8: on metadata with distinct ids covering every input age-group id
and inputs whose sex ids are all in {1, 2, 3}, the range conversion
succeeds and returns exactly one row per input row in the original
order, each row mapped by the fixed contract: sex id 1 ↦ 0.5, 2 ↦ −0.5,
3 ↦ 0; age bounds looked up from the metadata row of the input's
age-group id; `time_lower = year_id` and `time_upper = year_id + 1`
(all recorded in `expectedDismodRow` and `sexCodeOf`). -/
theorem C8_range_conversion (rows : List IdRow) (ags : List AgeGroupRow)
    (hnodup : (ags.map (fun g => g.age_group_id)).Nodup)
    (hcover : ∀ r ∈ rows, ∃ g ∈ ags, g.age_group_id = r.age_group_id)
    (hsex : ∀ r ∈ rows, r.sex_id = 1 ∨ r.sex_id = 2 ∨ r.sex_id = 3) :
    convert_gbd_ids_to_dismod_values rows ags = .ok (rows.map (expectedDismodRow ags)) ∧
    (rows.map (expectedDismodRow ags)).length = rows.length ∧
    sexCodeOf 1 = 1/2 ∧ sexCodeOf 2 = -(1/2) ∧ sexCodeOf 3 = 0 :=
  ⟨convert_ok_canonical rows ags hnodup hcover hsex, by rw [List.length_map], rfl, rfl, rfl⟩

theorem C8_range_conversion_witness :
    convert_gbd_ids_to_dismod_values
        [⟨11, 1, 2000⟩, ⟨10, 2, 2001⟩, ⟨10, 3, 2002⟩] witnessAgeGroups
      = .ok ([⟨11, 1, 2000⟩, ⟨10, 2, 2001⟩, ⟨10, 3, 2002⟩].map
          (expectedDismodRow witnessAgeGroups)) ∧
    (([⟨11, 1, 2000⟩, ⟨10, 2, 2001⟩, ⟨10, 3, 2002⟩] : List IdRow).map
        (expectedDismodRow witnessAgeGroups)).length
      = ([⟨11, 1, 2000⟩, ⟨10, 2, 2001⟩, ⟨10, 3, 2002⟩] : List IdRow).length ∧
    sexCodeOf 1 = 1/2 ∧ sexCodeOf 2 = -(1/2) ∧ sexCodeOf 3 = 0 :=
  C8_range_conversion [⟨11, 1, 2000⟩, ⟨10, 2, 2001⟩, ⟨10, 3, 2002⟩] witnessAgeGroups
    (by decide) (by decide) (by decide)

/-- C10: if every input age-group id is covered by the (distinct-id)
metadata but some row carries a sex id outside {1, 2, 3}, the sex join
shrinks the row count, so the conversion raises the same input-data
error with an empty set of missing age-group ids; the offending row is
never passed through. -/
theorem C10_invalid_sex_id (rows : List IdRow) (ags : List AgeGroupRow)
    (hnodup : (ags.map (fun g => g.age_group_id)).Nodup)
    (hcover : ∀ r ∈ rows, ∃ g ∈ ags, g.age_group_id = r.age_group_id)
    (r0 : IdRow) (hr0 : r0 ∈ rows)
    (hbad : ¬(r0.sex_id = 1 ∨ r0.sex_id = 2 ∨ r0.sex_id = 3)) :
    ∃ matched,
      convert_gbd_ids_to_dismod_values rows ags
        = .error (.inputDataMissingAgeGroups [] rows.length matched) ∧
      matched < rows.length := by
  have hlt := mergedJoin_length_lt_of_badsex rows ags hnodup hcover r0 hr0 hbad
  have hnil : (rows.map (fun r => r.age_group_id)).dedup.filter
      (fun i => !(ags.map (fun g => g.age_group_id)).contains i) = [] := by
    apply List.filter_eq_nil_iff.mpr
    intro i hi hcontr
    rw [List.mem_dedup] at hi
    obtain ⟨r, hr, rfl⟩ := List.mem_map.mp hi
    obtain ⟨g, hg, hgid⟩ := hcover r hr
    have hmem : r.age_group_id ∈ ags.map (fun g => g.age_group_id) :=
      hgid ▸ List.mem_map_of_mem _ hg
    simp [hmem] at hcontr
  refine ⟨(mergedJoin rows ags).length, ?_, hlt⟩
  simp only [convert_gbd_ids_to_dismod_values]
  rw [if_pos (Nat.ne_of_lt hlt), hnil]

theorem C10_invalid_sex_id_witness :
    ∃ matched,
      convert_gbd_ids_to_dismod_values [⟨10, 9, 2000⟩] witnessAgeGroups
        = .error (.inputDataMissingAgeGroups [] [(⟨10, 9, 2000⟩ : IdRow)].length matched) ∧
      matched < [(⟨10, 9, 2000⟩ : IdRow)].length :=
  C10_invalid_sex_id [⟨10, 9, 2000⟩] witnessAgeGroups (by decide) (by decide)
    ⟨10, 9, 2000⟩ (by decide) (by decide)

end Cascade
